import Mathlib

/-!
The WDS actions of qmicli (`src/qmicli/qmicli-wds.c`).

A shallow embedding of the command-building and session-control code of
`qmicli-wds.c`.

* C strings are lists of characters (`CStr`); the end of the list plays the
  role of the terminating NUL.
* Machine integers are natural numbers / integers with explicit reduction
  modulo the width of the C type.  `unsigned long` is 64 bits wide (LP64),
  which is what the comparison `packet_data_handle > G_MAXUINT32` in
  `qmicli_wds_run` presupposes.
* Callbacks are functions on the live `Context`; what they ask of GLib and of
  the QMI client is recorded as a list of `Effect`s.  Output written with
  `g_print`, `g_printerr` and `g_debug` is not recorded, with two exceptions:
  the handle that `start_network_ready` prints (`start_network_ready_report`)
  and the lines of the profile list walk (`WalkEffect`).
-/

namespace QmicliWds

/-- A C string: its characters up to, and excluding, the terminating NUL. -/
abbrev CStr := List Char

/-! ## GLib and libc string functions used by the file -/

/-- The function `g_ascii_tolower`: maps `A`..`Z` to `a`..`z`, every other
character to itself. -/
def g_ascii_tolower (c : Char) : Char :=
  if 'A' ≤ c ∧ c ≤ 'Z' then Char.ofNat (c.toNat + 32) else c

/-- The function `g_ascii_strcasecmp`: walk both strings while neither has
ended, return the difference of the first pair of characters whose lower-case
forms differ, and otherwise the difference of the characters at which the walk
stopped (`0` stands for the terminating NUL). -/
def g_ascii_strcasecmp : CStr → CStr → Int
  | [], [] => 0
  | [], c2 :: _ => 0 - (c2.toNat : Int)
  | c1 :: _, [] => (c1.toNat : Int) - 0
  | c1 :: s1, c2 :: s2 =>
    if (g_ascii_tolower c1).toNat ≠ (g_ascii_tolower c2).toNat then
      ((g_ascii_tolower c1).toNat : Int) - ((g_ascii_tolower c2).toNat : Int)
    else g_ascii_strcasecmp s1 s2

/-- The function `g_str_has_prefix s prefix`. -/
def g_str_has_prefix (s pre : CStr) : Bool :=
  pre.isPrefixOf s

/-- The test `strchr (s, c) != NULL`. -/
def strchr (s : CStr) (c : Char) : Bool :=
  s.contains c

/-- The C `isspace` in the "C" locale: space, `\t`, `\n`, `\v`, `\f`, `\r`. -/
def isspace (c : Char) : Bool :=
  c = ' ' ∨ (9 ≤ c.toNat ∧ c.toNat ≤ 13)

/-- Value of a character as a digit in the given base (`strtoul`, `strtol`):
`0`..`9`, then letters of either case for ten and above; `none` when the
character is not a digit of that base. -/
def digit_value (base : Nat) (c : Char) : Option Nat :=
  let v : Option Nat :=
    if '0' ≤ c ∧ c ≤ '9' then some (c.toNat - 48)
    else if 'a' ≤ c ∧ c ≤ 'z' then some (c.toNat - 97 + 10)
    else if 'A' ≤ c ∧ c ≤ 'Z' then some (c.toNat - 65 + 10)
    else none
  match v with
  | some d => if d < base then some d else none
  | none => none

/-- Skip leading white space (first step of `strtoul`, `strtol`, `atoi`). -/
def skip_spaces : CStr → CStr
  | [] => []
  | c :: cs => if isspace c then skip_spaces cs else c :: cs

/-- Read an optional sign: `true` when a minus sign was consumed. -/
def read_sign : CStr → Bool × CStr
  | '-' :: cs => (true, cs)
  | '+' :: cs => (false, cs)
  | cs => (false, cs)

/-- Accumulate the longest run of digits of the given base, starting from
`acc`; the mathematical value, not yet clamped to the result type. -/
def read_digits (base : Nat) : Nat → CStr → Nat
  | acc, [] => acc
  | acc, c :: cs =>
    match digit_value base c with
    | some d => read_digits base (acc * base + d) cs
    | none => acc

/-- In base 16 an initial `0x` / `0X` is skipped by `strtoul`. -/
def skip_0x (base : Nat) : CStr → CStr
  | '0' :: 'x' :: cs => if base = 16 then cs else '0' :: 'x' :: cs
  | '0' :: 'X' :: cs => if base = 16 then cs else '0' :: 'X' :: cs
  | cs => cs

/-- The largest `unsigned long` (LP64). -/
def ULONG_MAX : Nat := 2 ^ 64 - 1

/-- The largest `guint32`. -/
def G_MAXUINT32 : Nat := 0xFFFFFFFF

/-- The call `strtoul (nptr, NULL, base)` for `base` 10 or 16: white space,
optional sign, optional `0x` in base 16, then the longest run of digits.  No
digits gives 0; a value above `ULONG_MAX` gives `ULONG_MAX`; a minus sign
negates the value in `unsigned long`. -/
def strtoul (nptr : CStr) (base : Nat) : Nat :=
  let (neg, rest) := read_sign (skip_spaces nptr)
  let v := read_digits base 0 (skip_0x base rest)
  if v > ULONG_MAX then ULONG_MAX
  else if neg then (2 ^ 64 - v) % 2 ^ 64
  else v

/-- The call `strtol (nptr, NULL, 10)`: as `strtoul`, with the result clamped
to the range of `long` (LP64). -/
def strtol (nptr : CStr) : Int :=
  let (neg, rest) := read_sign (skip_spaces nptr)
  let v := read_digits 10 0 rest
  if neg then (if v > 2 ^ 63 then -(2 ^ 63 : Int) else -(v : Int))
  else (if v > 2 ^ 63 - 1 then (2 ^ 63 - 1 : Int) else (v : Int))

/-- The function `atoi`, as in glibc: `(int) strtol (nptr, NULL, 10)`, the
conversion from `long` to `int` keeping the low 32 bits. -/
def atoi (nptr : CStr) : Int :=
  (strtol nptr + 2 ^ 31) % 2 ^ 32 - 2 ^ 31

/-- Conversion of an `int` to `guint8` (assignment to a `guint8` field). -/
def to_guint8 (x : Int) : Nat := (x % 256).toNat

/-- Conversion of an `int` to `guint32` (assignment to a `guint32` field). -/
def to_guint32 (x : Int) : Nat := (x % 2 ^ 32).toNat

/-- Pieces of a string between occurrences of the separator; a string with
`n` separators has `n + 1` pieces, some possibly empty. -/
def split_on (sep : Char) : CStr → List CStr
  | [] => [[]]
  | c :: cs =>
    if c = sep then [] :: split_on sep cs
    else
      match split_on sep cs with
      | [] => [[c]]
      | piece :: pieces => (c :: piece) :: pieces

/-- The call `g_strsplit (str, ",", 0)`: the empty string gives the empty
vector, any other string its comma-separated pieces. -/
def g_strsplit (str : CStr) : List CStr :=
  if str = [] then [] else split_on ',' str

/-! ## Enumerations of libqmi-glib named by the file -/

/-- Authentication preference (`QmiWdsAuthentication`): `NONE`, `PAP`, `CHAP`,
and `BOTH` for the mask `PAP | CHAP`. -/
inductive QmiWdsAuthentication where
  | NONE
  | PAP
  | CHAP
  | BOTH
deriving DecidableEq

/-- IP family (`QmiWdsIpFamily`): the three enumerators the file names. -/
inductive QmiWdsIpFamily where
  | UNSPECIFIED
  | IPV4
  | IPV6
deriving DecidableEq

/-- Connection status (`QmiWdsConnectionStatus`): the enumerator the file
names, and any other value of the type. -/
inductive QmiWdsConnectionStatus where
  | CONNECTED
  | other (raw : Nat)
deriving DecidableEq

/-- Data endpoint type (`QmiDataEndpointType`): the enumerator the file names,
and any other value of the type. -/
inductive QmiDataEndpointType where
  | HSUSB
  | other (raw : Nat)
deriving DecidableEq

/-- Client type (`QmiWdsClientType`): the enumerator the file names, and any
other value of the type. -/
inductive QmiWdsClientType where
  | TETHERED
  | other (raw : Nat)
deriving DecidableEq

/-! ## Helpers of `qmicli-helpers.c` -/

/-- Modelled from the spec: `qmicli_read_authentication_from_string` of
`qmicli-helpers.c` is not part of the given source.  The spec has `auth` be
"one of a fixed enumeration: none/pap/chap/both", and the option help of this
file spells the names in capitals, so names are compared without regard to
case.  `none` is the `FALSE` return, which leaves the output untouched. -/
def qmicli_read_authentication_from_string (str : CStr) : Option QmiWdsAuthentication :=
  if g_ascii_strcasecmp str "pap".toList = 0 then some .PAP
  else if g_ascii_strcasecmp str "chap".toList = 0 then some .CHAP
  else if g_ascii_strcasecmp str "both".toList = 0 then some .BOTH
  else if g_ascii_strcasecmp str "none".toList = 0 then some .NONE
  else none

/-- Modelled from the spec: `qmicli_read_yes_no_from_string` of
`qmicli-helpers.c` is not part of the given source.  The spec has
`autoconnect` take "yes/no"; names are compared without regard to case. -/
def qmicli_read_yes_no_from_string (str : CStr) : Option Bool :=
  if g_ascii_strcasecmp str "yes".toList = 0 then some true
  else if g_ascii_strcasecmp str "no".toList = 0 then some false
  else none

/-- Modelled from the spec: part of `qmicli_parse_key_value_string`, which is
not in the given source.  "Split each segment on the first `=`": the key is
what precedes it and the value what follows; a segment without `=` has a key
and no value (the handlers test for a `NULL` value). -/
def split_key_value : CStr → CStr × Option CStr
  | [] => ([], none)
  | c :: cs =>
    if c = '=' then ([], some cs)
    else ((split_key_value cs).1.cons c, (split_key_value cs).2)

/-- Modelled from the spec: part of `qmicli_parse_key_value_string`, which is
not in the given source.  "Invoke the handler with (key, value)", in order;
"the parse fails ... as soon as any handler invocation fails". -/
def parse_key_value_pairs {α : Type} (callback : CStr → Option CStr → α → Bool × α) :
    List (CStr × Option CStr) → α → Bool × α
  | [], props => (true, props)
  | (key, value) :: rest, props =>
    match callback key value props with
    | (true, props1) => parse_key_value_pairs callback rest props1
    | (false, props1) => (false, props1)

/-- Modelled from the spec: part of `qmicli_parse_key_value_string`, which is
not in the given source.  The (key, value) pairs of a string: "split the
string on top-level commas, split each segment on the first `=`". -/
def key_value_pairs (str : CStr) : List (CStr × Option CStr) :=
  (split_on ',' str).map split_key_value

/-- Modelled from the spec: `qmicli_parse_key_value_string` of
`qmicli-helpers.c` is not part of the given source.  Spec, PropertyParser:
"split the string on top-level commas, split each segment on the first `=`,
and invoke the handler with (key, value).  The parse fails ... as soon as any
handler invocation fails."  The record is returned as the handler left it,
also on failure. -/
def qmicli_parse_key_value_string {α : Type} (str : CStr)
    (callback : CStr → Option CStr → α → Bool × α) (user_data : α) : Bool × α :=
  parse_key_value_pairs callback (key_value_pairs str) user_data

/-! ## Start-network properties -/

/-- The record `StartNetworkProperties`. -/
structure StartNetworkProperties where
  apn : Option CStr
  profile_index_3gpp : Nat
  profile_index_3gpp2 : Nat
  auth : QmiWdsAuthentication
  auth_set : Bool
  ip_type : QmiWdsIpFamily
  username : Option CStr
  password : Option CStr
  autoconnect : Bool
  autoconnect_set : Bool
deriving DecidableEq

/-- The callback `start_network_properties_handle`: the result flag and the
record as the call leaves it. -/
def start_network_properties_handle (key : CStr) (value : Option CStr)
    (props : StartNetworkProperties) : Bool × StartNetworkProperties :=
  match value with
  | none => (false, props)
  | some [] => (false, props)
  | some (v :: vs) =>
    if g_ascii_strcasecmp key "apn".toList = 0 ∧ props.apn = none then
      (true, { props with apn := some (v :: vs) })
    else if g_ascii_strcasecmp key "3gpp-profile".toList = 0 ∧ props.profile_index_3gpp = 0 then
      (true, { props with profile_index_3gpp := to_guint8 (atoi (v :: vs)) })
    else if g_ascii_strcasecmp key "3gpp2-profile".toList = 0 ∧ props.profile_index_3gpp2 = 0 then
      (true, { props with profile_index_3gpp2 := to_guint8 (atoi (v :: vs)) })
    else if g_ascii_strcasecmp key "auth".toList = 0 ∧ props.auth_set = false then
      match qmicli_read_authentication_from_string (v :: vs) with
      | none => (false, props)
      | some a => (true, { props with auth := a, auth_set := true })
    else if g_ascii_strcasecmp key "username".toList = 0 ∧ props.username = none then
      (true, { props with username := some (v :: vs) })
    else if g_ascii_strcasecmp key "password".toList = 0 ∧ props.password = none then
      (true, { props with password := some (v :: vs) })
    else if g_ascii_strcasecmp key "autoconnect".toList = 0 ∧ props.autoconnect_set = false then
      match qmicli_read_yes_no_from_string (v :: vs) with
      | none => (false, props)
      | some b => (true, { props with autoconnect := b, autoconnect_set := true })
    else if g_ascii_strcasecmp key "ip-type".toList = 0 ∧ props.ip_type = .UNSPECIFIED then
      if atoi (v :: vs) = 4 then (true, { props with ip_type := .IPV4 })
      else if atoi (v :: vs) = 6 then (true, { props with ip_type := .IPV6 })
      else (false, props)
    else (false, props)

/-- The request bundle `QmiMessageWdsStartNetworkInput`: each field is present
when its setter was called. -/
structure QmiMessageWdsStartNetworkInput where
  apn : Option CStr
  profile_index_3gpp : Option Nat
  profile_index_3gpp2 : Option Nat
  ip_family_preference : Option QmiWdsIpFamily
  authentication_preference : Option QmiWdsAuthentication
  username : Option CStr
  password : Option CStr
  enable_autoconnect : Option Bool
deriving DecidableEq

/-- The initial record of `start_network_input_create`: `auth` and `ip_type`
as written, every other field zero. -/
def start_network_properties_init : StartNetworkProperties :=
  { apn := none, profile_index_3gpp := 0, profile_index_3gpp2 := 0,
    auth := .NONE, auth_set := false, ip_type := .UNSPECIFIED,
    username := none, password := none, autoconnect := false, autoconnect_set := false }

/-- The old positional format of `start_network_input_create`,
`APN,auth,username,password`: `none` when the auth name is unknown.  An entry
of the split vector at its length is the terminating `NULL`. -/
def start_network_legacy_properties (str : CStr) (props : StartNetworkProperties) :
    Option StartNetworkProperties :=
  let split := g_strsplit str
  let props1 := { props with apn := split[0]? }
  let with_auth : Option StartNetworkProperties :=
    match props1.apn, split[1]? with
    | some _, some auth_str =>
      match qmicli_read_authentication_from_string auth_str with
      | none => none
      | some a => some { props1 with auth := a, auth_set := true }
    | _, _ => some props1
  match with_auth with
  | none => none
  | some props2 =>
    let username := if props2.auth_set then split[2]? else none
    let password := if username.isSome then split[3]? else none
    some { props2 with username := username, password := password }

/-- The part of `start_network_input_create` after the label
"Create input bundle": one setter per supplied field.  `ip_family_value` gives
the numeric value of each `QmiWdsIpFamily` enumerator, which libqmi-glib
declares and the test `props.ip_type != 0` reads. -/
def start_network_input_of_properties (ip_family_value : QmiWdsIpFamily → Nat)
    (props : StartNetworkProperties) : QmiMessageWdsStartNetworkInput :=
  { apn := props.apn,
    profile_index_3gpp :=
      if props.profile_index_3gpp > 0 then some props.profile_index_3gpp else none,
    profile_index_3gpp2 :=
      if props.profile_index_3gpp2 > 0 then some props.profile_index_3gpp2 else none,
    ip_family_preference :=
      if ip_family_value props.ip_type ≠ 0 then some props.ip_type else none,
    authentication_preference := if props.auth_set then some props.auth else none,
    username :=
      match props.username with
      | some (c :: cs) => some (c :: cs)
      | _ => none,
    password :=
      match props.password with
      | some (c :: cs) => some (c :: cs)
      | _ => none,
    enable_autoconnect := if props.autoconnect_set then some props.autoconnect else none }

/-- The function `start_network_input_create`; `none` is the `NULL` return. -/
def start_network_input_create (ip_family_value : QmiWdsIpFamily → Nat) (str : CStr) :
    Option QmiMessageWdsStartNetworkInput :=
  if str = [] then none
  else if strchr str '=' then
    match qmicli_parse_key_value_string str start_network_properties_handle
        start_network_properties_init with
    | (false, _) => none
    | (true, props) => some (start_network_input_of_properties ip_family_value props)
  else
    match start_network_legacy_properties str start_network_properties_init with
    | none => none
    | some props => some (start_network_input_of_properties ip_family_value props)

/-! ## Bind-mux properties -/

/-- The macro `QMI_WDS_MUX_ID_UNDEFINED`. -/
def QMI_WDS_MUX_ID_UNDEFINED : Nat := 0xFF

/-- The macro `QMI_WDS_ENDPOINT_INTERFACE_NUMBER_UNDEFINED`. -/
def QMI_WDS_ENDPOINT_INTERFACE_NUMBER_UNDEFINED : Int := -1

/-- The record `BindMuxDataPortProperties`; `mux_id` and `ep_iface_number` are
`guint32`. -/
structure BindMuxDataPortProperties where
  mux_id : Nat
  ep_type : QmiDataEndpointType
  ep_iface_number : Nat
  client_type : QmiWdsClientType
deriving DecidableEq

/-- The callback `bind_mux_data_port_properties_handle`: the result flag and
the record as the call leaves it. -/
def bind_mux_data_port_properties_handle (key : CStr) (value : Option CStr)
    (props : BindMuxDataPortProperties) : Bool × BindMuxDataPortProperties :=
  match value with
  | none => (false, props)
  | some [] => (false, props)
  | some (v :: vs) =>
    if g_ascii_strcasecmp key "mux-id".toList = 0 then
      (true, { props with mux_id := to_guint32 (atoi (v :: vs)) })
    else if g_ascii_strcasecmp key "ep-iface-number".toList = 0 then
      (true, { props with ep_iface_number := to_guint32 (atoi (v :: vs)) })
    else (false, props)

/-- The request bundle `QmiMessageWdsBindMuxDataPortInput` with the values
handed to its three setters, as the caller passes them (the setters are
declared by libqmi-glib, outside this file). -/
structure QmiMessageWdsBindMuxDataPortInput where
  endpoint_type : QmiDataEndpointType
  endpoint_interface_number : Nat
  mux_id : Nat
  client_type : QmiWdsClientType
deriving DecidableEq

/-- The initial record of `bind_mux_data_port_input_create`. -/
def bind_mux_data_port_properties_init : BindMuxDataPortProperties :=
  { mux_id := QMI_WDS_MUX_ID_UNDEFINED,
    ep_type := .HSUSB,
    ep_iface_number := to_guint32 QMI_WDS_ENDPOINT_INTERFACE_NUMBER_UNDEFINED,
    client_type := .TETHERED }

/-- The function `bind_mux_data_port_input_create`; `none` is the `NULL`
return.  The three setters are called on a bundle that was just created and
do not fail. -/
def bind_mux_data_port_input_create (str : CStr) : Option QmiMessageWdsBindMuxDataPortInput :=
  if str = [] then none
  else if strchr str '=' then
    match qmicli_parse_key_value_string str bind_mux_data_port_properties_handle
        bind_mux_data_port_properties_init with
    | (false, _) => none
    | (true, props) =>
      if props.mux_id = QMI_WDS_MUX_ID_UNDEFINED ∨
          props.ep_iface_number = to_guint32 QMI_WDS_ENDPOINT_INTERFACE_NUMBER_UNDEFINED then
        none
      else
        some { endpoint_type := props.ep_type,
               endpoint_interface_number := props.ep_iface_number,
               mux_id := props.mux_id,
               client_type := props.client_type }
  else none

/-! ## Context, effects and callbacks of the session -/

/-- The fields of `Context` that the network session uses. -/
structure Context where
  network_started_id : Nat
  packet_status_timeout_id : Nat
  packet_data_handle : Nat
deriving DecidableEq

/-- The request bundle `QmiMessageWdsStopNetworkInput`: the packet data
handle, and the disable-autoconnect field when its setter was called. -/
structure QmiMessageWdsStopNetworkInput where
  packet_data_handle : Nat
  disable_autoconnect : Option Bool
deriving DecidableEq

/-- What a callback asks of the QMI client and of GLib, in program order.
Requests carry their bundle (`none` for a `NULL` bundle) and their timeout. -/
inductive Effect where
  | start_network (input : Option QmiMessageWdsStartNetworkInput) (timeout : Nat)
  | stop_network (input : QmiMessageWdsStopNetworkInput) (timeout : Nat)
  | bind_mux_data_port (input : Option QmiMessageWdsBindMuxDataPortInput) (timeout : Nat)
  | get_packet_service_status (timeout : Nat)
  | cancellable_connect
  | timeout_add_seconds (interval : Nat)
  | cancellable_disconnect (handler_id : Nat)
  | source_remove (source_id : Nat)
  | async_operation_done (operation_status : Bool)
deriving DecidableEq

/-- Result of a callback: the context it leaves (`none` once `context_free`
has released it) and the effects it caused. -/
abbrev Step := Option Context × List Effect

/-- The function `context_free`: the cancellation handler and the poll timer
are released when their ids are nonzero. -/
def context_free (context : Context) : List Effect :=
  (if context.network_started_id ≠ 0 then
    [Effect.cancellable_disconnect context.network_started_id] else []) ++
  (if context.packet_status_timeout_id ≠ 0 then
    [Effect.source_remove context.packet_status_timeout_id] else [])

/-- The function `operation_shutdown`. -/
def operation_shutdown (ctx : Context) (operation_status : Bool) : Step :=
  (none, context_free ctx ++ [Effect.async_operation_done operation_status])

/-- Outcome of an asynchronous exchange as its `_ready` callback sees it:
`failed` when `_finish` returns no output, `error` when the output carries a
protocol error result, `ok` with the fields read on success. -/
inductive AsyncResult (α : Type) where
  | failed
  | error
  | ok (output : α)
deriving DecidableEq

/-- The callback `stop_network_ready`. -/
def stop_network_ready (ctx : Context) (res : AsyncResult Unit) : Step :=
  match res with
  | .failed => operation_shutdown ctx false
  | .error => operation_shutdown ctx false
  | .ok _ => operation_shutdown ctx true

/-- The function `internal_stop_network`: one stop request, timeout 10. -/
def internal_stop_network (packet_data_handle : Nat) (disable_autoconnect : Bool) :
    List Effect :=
  [Effect.stop_network
    { packet_data_handle := packet_data_handle,
      disable_autoconnect := if disable_autoconnect then some true else none } 10]

/-- The callback `network_cancelled`. -/
def network_cancelled (ctx : Context) : Step :=
  let ctx1 := { ctx with network_started_id := 0 }
  if ctx1.packet_status_timeout_id ≠ 0 then
    let ctx2 := { ctx1 with packet_status_timeout_id := 0 }
    (some ctx2,
      Effect.source_remove ctx1.packet_status_timeout_id ::
        internal_stop_network ctx2.packet_data_handle false)
  else
    (some ctx1, internal_stop_network ctx1.packet_data_handle false)

/-- The callback `timeout_get_packet_service_status_ready`; the connection
status is a mandatory field of a successful response. -/
def timeout_get_packet_service_status_ready (ctx : Context)
    (res : AsyncResult QmiWdsConnectionStatus) : Step :=
  match res with
  | .failed => (some ctx, [])
  | .error => (some ctx, [])
  | .ok status =>
    if status ≠ .CONNECTED then
      (some ctx, internal_stop_network ctx.packet_data_handle false)
    else (some ctx, [])

/-- The timer callback `packet_status_timeout`: one status request, timeout
10; it returns `TRUE`, so the timer stays armed. -/
def packet_status_timeout (ctx : Context) : Step :=
  (some ctx, [Effect.get_packet_service_status 10])

/-- The callback `start_network_ready`, together with the handle that its
"Network started" report prints (`none` on the paths that write no such
report).  A successful response carries the packet data handle: the callback
stores it in the context and prints it from there.  `handler_id` and
`source_id` are what `g_cancellable_connect` and `g_timeout_add_seconds`
return. -/
def start_network_ready_report (follow_network_flag : Bool) (handler_id source_id : Nat)
    (ctx : Context) (res : AsyncResult Nat) : Step × Option Nat :=
  match res with
  | .failed => (operation_shutdown ctx false, none)
  | .error => (operation_shutdown ctx false, none)
  | .ok handle =>
    let ctx := { ctx with packet_data_handle := handle }
    let printed := some ctx.packet_data_handle
    if follow_network_flag then
      ((some { ctx with network_started_id := handler_id,
                        packet_status_timeout_id := source_id },
        [Effect.cancellable_connect, Effect.timeout_add_seconds 20]), printed)
    else (operation_shutdown ctx true, printed)

/-- The callback `start_network_ready`: what it leaves of the context and what
it asks of GLib and of the QMI client. -/
def start_network_ready (follow_network_flag : Bool) (handler_id source_id : Nat)
    (ctx : Context) (res : AsyncResult Nat) : Step :=
  (start_network_ready_report follow_network_flag handler_id source_id ctx res).1

/-! ## The entry point -/

/-- The option variables read by the three actions modelled here. -/
structure Options where
  start_network_str : Option CStr
  follow_network_flag : Bool
  stop_network_str : Option CStr
  bind_mux_str : Option CStr
deriving DecidableEq

/-- The context as `qmicli_wds_run` initialises it: both ids 0.  The source
leaves `packet_data_handle` unset; it is written by `start_network_ready`
before any read. -/
def context_init : Context :=
  { network_started_id := 0, packet_status_timeout_id := 0, packet_data_handle := 0 }

/-- The number that the stop branch of `qmicli_wds_run` reads from a string
other than `disable-autoconnect`: `strtoul` in base 16 when the string starts
with `0x`, in base 10 otherwise. -/
def stop_network_handle (stop_network_str : CStr) : Nat :=
  if g_str_has_prefix stop_network_str "0x".toList then strtoul stop_network_str 16
  else strtoul stop_network_str 10

/-- The stop branch of `qmicli_wds_run`; the handle is passed on as
`(guint32) packet_data_handle`. -/
def run_stop_network (ctx : Context) (stop_network_str : CStr) : Step :=
  if stop_network_str = "disable-autoconnect".toList then
    (some ctx, internal_stop_network (0xFFFFFFFF % 2 ^ 32) true)
  else
    if stop_network_handle stop_network_str = 0 ∨
        stop_network_handle stop_network_str > G_MAXUINT32 then
      operation_shutdown ctx false
    else
      (some ctx, internal_stop_network (stop_network_handle stop_network_str % 2 ^ 32) false)

/-- The function `qmicli_wds_run`, for the start, stop and bind-mux actions
(the remaining actions are not modelled and give no effect here). -/
def qmicli_wds_run (ip_family_value : QmiWdsIpFamily → Nat) (opts : Options) : Step :=
  let ctx := context_init
  match opts.start_network_str with
  | some str =>
    (some ctx, [Effect.start_network (start_network_input_create ip_family_value str) 45])
  | none =>
    match opts.stop_network_str with
    | some str => run_stop_network ctx str
    | none =>
      match opts.bind_mux_str with
      | some str =>
        (some ctx, [Effect.bind_mux_data_port (bind_mux_data_port_input_create str) 10])
      | none => (some ctx, [])

/-! ## Runs of the session callbacks -/

/-- The callbacks of the network session, with what the main loop hands
them. -/
inductive Event where
  | start_network_ready (res : AsyncResult Nat) (handler_id source_id : Nat)
  | packet_status_timeout
  | timeout_get_packet_service_status_ready (res : AsyncResult QmiWdsConnectionStatus)
  | network_cancelled
  | stop_network_ready (res : AsyncResult Unit)
deriving DecidableEq

/-- A session in progress: the context (`none` once released), the effects so
far, and the callbacks that have run. -/
structure Session where
  ctx : Option Context
  trace : List Effect
  handled : List Event
deriving DecidableEq

/-- The effect is a start request. -/
def Effect.is_start_network : Effect → Bool
  | .start_network _ _ => true
  | _ => false

/-- The effect is a stop request. -/
def Effect.is_stop_network : Effect → Bool
  | .stop_network _ _ => true
  | _ => false

/-- The effect is a packet service status request. -/
def Effect.is_get_packet_service_status : Effect → Bool
  | .get_packet_service_status _ => true
  | _ => false

/-- The event is the completion of a start request. -/
def Event.is_start_network_ready : Event → Bool
  | .start_network_ready _ _ _ => true
  | _ => false

/-- The event is the completion of a stop request. -/
def Event.is_stop_network_ready : Event → Bool
  | .stop_network_ready _ => true
  | _ => false

/-- The event is the completion of a packet service status request. -/
def Event.is_status_ready : Event → Bool
  | .timeout_get_packet_service_status_ready _ => true
  | _ => false

/-- When the main loop can run a callback: a `_ready` callback needs a request
of its kind still awaiting completion, the timer callback needs the timer
source to be armed, and the cancellation callback needs its handler to be
connected. -/
def Event.enabled (ctx : Context) (s : Session) : Event → Bool
  | .start_network_ready _ _ _ =>
    s.handled.countP Event.is_start_network_ready < s.trace.countP Effect.is_start_network
  | .packet_status_timeout => ctx.packet_status_timeout_id ≠ 0
  | .timeout_get_packet_service_status_ready _ =>
    s.handled.countP Event.is_status_ready < s.trace.countP Effect.is_get_packet_service_status
  | .network_cancelled => ctx.network_started_id ≠ 0
  | .stop_network_ready _ =>
    s.handled.countP Event.is_stop_network_ready < s.trace.countP Effect.is_stop_network

/-- The callback an event runs; `start_network_ready` reads the option
variable `follow_network_flag`. -/
def Event.dispatch (opts : Options) (ctx : Context) : Event → Step
  | .start_network_ready res handler_id source_id =>
    QmicliWds.start_network_ready opts.follow_network_flag handler_id source_id ctx res
  | .packet_status_timeout => QmicliWds.packet_status_timeout ctx
  | .timeout_get_packet_service_status_ready res =>
    QmicliWds.timeout_get_packet_service_status_ready ctx res
  | .network_cancelled => QmicliWds.network_cancelled ctx
  | .stop_network_ready res => QmicliWds.stop_network_ready ctx res

/-- Run one callback; `none` when the main loop cannot run it in this
state. -/
def Session.step (opts : Options) (s : Session) (ev : Event) : Option Session :=
  match s.ctx with
  | none => none
  | some ctx =>
    if ev.enabled ctx s then
      some { ctx := (ev.dispatch opts ctx).1,
             trace := s.trace ++ (ev.dispatch opts ctx).2,
             handled := s.handled ++ [ev] }
    else none

/-- Run callbacks in order. -/
def Session.run (opts : Options) : Session → List Event → Option Session
  | s, [] => some s
  | s, ev :: evs =>
    match s.step opts ev with
    | none => none
    | some s1 => Session.run opts s1 evs

/-- The session that `qmicli_wds_run` leaves behind. -/
def Session.start (ip_family_value : QmiWdsIpFamily → Nat) (opts : Options) : Session :=
  { ctx := (qmicli_wds_run ip_family_value opts).1,
    trace := (qmicli_wds_run ip_family_value opts).2,
    handled := [] }

/-- Options selecting the start action. -/
def Options.start (str : CStr) (follow_network_flag : Bool) : Options :=
  { start_network_str := some str, follow_network_flag := follow_network_flag,
    stop_network_str := none, bind_mux_str := none }

/-- Options selecting the stop action. -/
def Options.stop (str : CStr) : Options :=
  { start_network_str := none, follow_network_flag := false,
    stop_network_str := some str, bind_mux_str := none }

/-- Options selecting the bind-mux action. -/
def Options.bind_mux (str : CStr) : Options :=
  { start_network_str := none, follow_network_flag := false,
    stop_network_str := none, bind_mux_str := some str }

/-- The stop requests among a list of effects. -/
def stop_requests (trace : List Effect) : List Effect :=
  trace.filter Effect.is_stop_network

/-! ## The profile list walk -/

/-- One element of the profile list of a `Get Profile List` response
(`QmiMessageWdsGetProfileListOutputProfileListProfile`), with the three fields
the file reads; `profile_type` is the numeric value of the `QmiWdsProfileType`
member. -/
structure Profile where
  profile_type : Nat
  profile_index : Nat
  profile_name : CStr
deriving DecidableEq

/-- What `get_profile_settings_ready` reads from a successful `Get Profile
Settings` response: each getter either yields its value or reports the field
as missing (`none`). -/
structure ProfileSettings where
  apn_name : Option CStr
  pdp_type : Option Nat
  username : Option CStr
  password : Option CStr
  authentication : Option Nat
deriving DecidableEq

/-- The lines the profile list callbacks write with `g_print`, named by their
format string, with the arguments of the call. -/
inductive Line where
  | profile_list_empty
  | profile_list_retrieved
  | profile (profile_index : Nat) (profile_type : Nat) (profile_name : CStr)
  | apn (str : CStr)
  | pdp_type (pdp_type : Nat)
  | username (str : CStr)
  | password (str : CStr)
  | auth (auth : Nat)
deriving DecidableEq

/-- The reports the profile list callbacks write with `g_printerr`; the text
of the error they quote is left out. -/
inductive ErrorLine where
  | operation_failed
  | couldnt_get_profile_list
  | couldnt_get_profile_settings
deriving DecidableEq

/-- What the profile list callbacks do, in program order: lines written,
`Get Profile Settings` requests (profile type, profile index, timeout in
seconds), and the effects of `operation_shutdown`. -/
inductive WalkEffect where
  | print (line : Line)
  | printerr (line : ErrorLine)
  | get_profile_settings (profile_type profile_index : Nat) (timeout : Nat)
  | session (effect : Effect)
deriving DecidableEq

/-- The record `GetProfileListContext`; `i` is a `guint`. -/
structure GetProfileListContext where
  i : Nat
  profile_list : List Profile
deriving DecidableEq

/-- Result of a profile list callback: the context, the walk record (`none`
once freed or before it exists), and the effects in program order. -/
abbrev WalkStep := Option Context × Option GetProfileListContext × List WalkEffect

/-- The call `operation_shutdown (operation_status)` made from a profile list
callback that holds no walk record any more. -/
def walk_shutdown (ctx : Context) (operation_status : Bool) : WalkStep :=
  ((operation_shutdown ctx operation_status).1, none,
    (operation_shutdown ctx operation_status).2.map WalkEffect.session)

/-- The function `get_next_profile_settings`. -/
def get_next_profile_settings (ctx : Context) (inner_ctx : GetProfileListContext) : WalkStep :=
  if h : inner_ctx.i ≥ inner_ctx.profile_list.length then
    walk_shutdown ctx true
  else
    let profile := inner_ctx.profile_list.get ⟨inner_ctx.i, Nat.lt_of_not_ge h⟩
    (some ctx, some inner_ctx,
      [WalkEffect.print
         (Line.profile profile.profile_index profile.profile_type profile.profile_name),
       WalkEffect.get_profile_settings profile.profile_type profile.profile_index 3])

/-- The function `get_profile_settings_ready`; `inner_ctx->i++` is an
increment of a `guint`. -/
def get_profile_settings_ready (ctx : Context) (inner_ctx : GetProfileListContext)
    (res : AsyncResult ProfileSettings) : WalkStep :=
  let printed : List WalkEffect :=
    match res with
    | .failed => [WalkEffect.printerr ErrorLine.operation_failed]
    | .error => [WalkEffect.printerr ErrorLine.couldnt_get_profile_settings]
    | .ok output =>
      (match output.apn_name with
        | some str => [WalkEffect.print (Line.apn str)]
        | none => []) ++
      (match output.pdp_type with
        | some pdp_type => [WalkEffect.print (Line.pdp_type pdp_type)]
        | none => []) ++
      (match output.username with
        | some str => [WalkEffect.print (Line.username str)]
        | none => []) ++
      (match output.password with
        | some str => [WalkEffect.print (Line.password str)]
        | none => []) ++
      (match output.authentication with
        | some auth => [WalkEffect.print (Line.auth auth)]
        | none => [])
  let next := get_next_profile_settings ctx { inner_ctx with i := (inner_ctx.i + 1) % 2 ^ 32 }
  (next.1, next.2.1, printed ++ next.2.2)

/-- The function `get_profile_list_ready`; a successful response carries the
profile list, `none` when the getter leaves `profile_list` at `NULL`. -/
def get_profile_list_ready (ctx : Context) (res : AsyncResult (Option (List Profile))) :
    WalkStep :=
  match res with
  | .failed =>
    ((walk_shutdown ctx false).1, (walk_shutdown ctx false).2.1,
      WalkEffect.printerr ErrorLine.operation_failed :: (walk_shutdown ctx false).2.2)
  | .error =>
    ((walk_shutdown ctx false).1, (walk_shutdown ctx false).2.1,
      WalkEffect.printerr ErrorLine.couldnt_get_profile_list :: (walk_shutdown ctx false).2.2)
  | .ok none =>
    ((walk_shutdown ctx true).1, (walk_shutdown ctx true).2.1,
      WalkEffect.print Line.profile_list_empty :: (walk_shutdown ctx true).2.2)
  | .ok (some profile_list) =>
    if profile_list.length = 0 then
      ((walk_shutdown ctx true).1, (walk_shutdown ctx true).2.1,
        WalkEffect.print Line.profile_list_empty :: (walk_shutdown ctx true).2.2)
    else
      let next := get_next_profile_settings ctx { i := 0, profile_list := profile_list }
      (next.1, next.2.1, WalkEffect.print Line.profile_list_retrieved :: next.2.2)

/-- The effect is a `Get Profile Settings` request. -/
def WalkEffect.is_get_profile_settings : WalkEffect → Bool
  | .get_profile_settings _ _ _ => true
  | _ => false

/-- A profile list walk in progress: the context and the walk record (`none`
once released), the effects so far, and the number of `Get Profile Settings`
completions that have run. -/
structure ProfileWalk where
  ctx : Option Context
  inner_ctx : Option GetProfileListContext
  trace : List WalkEffect
  handled : Nat
deriving DecidableEq

/-- The `Get Profile Settings` requests still awaiting completion. -/
def ProfileWalk.outstanding (w : ProfileWalk) : Nat :=
  w.trace.countP WalkEffect.is_get_profile_settings - w.handled

/-- The walk that `get_profile_list_ready` leaves behind. -/
def ProfileWalk.start (ctx : Context) (res : AsyncResult (Option (List Profile))) :
    ProfileWalk :=
  { ctx := (get_profile_list_ready ctx res).1,
    inner_ctx := (get_profile_list_ready ctx res).2.1,
    trace := (get_profile_list_ready ctx res).2.2,
    handled := 0 }

/-- Run `get_profile_settings_ready` on one completion; `none` when no request
awaits completion (the main loop cannot run the callback). -/
def ProfileWalk.step (w : ProfileWalk) (res : AsyncResult ProfileSettings) :
    Option ProfileWalk :=
  match w.ctx, w.inner_ctx with
  | some ctx, some inner_ctx =>
    if 0 < w.outstanding then
      some { ctx := (get_profile_settings_ready ctx inner_ctx res).1,
             inner_ctx := (get_profile_settings_ready ctx inner_ctx res).2.1,
             trace := w.trace ++ (get_profile_settings_ready ctx inner_ctx res).2.2,
             handled := w.handled + 1 }
    else none
  | _, _ => none

/-- Run completions in order. -/
def ProfileWalk.run : ProfileWalk → List (AsyncResult ProfileSettings) → Option ProfileWalk
  | w, [] => some w
  | w, res :: rest =>
    match w.step res with
    | none => none
    | some w1 => ProfileWalk.run w1 rest

/-! ## Notions used to state the properties -/

/-- A list of characters is a C string when it holds no NUL character. -/
def c_string (s : CStr) : Prop := Char.ofNat 0 ∉ s

instance c_string_decidable (s : CStr) : Decidable (c_string s) :=
  inferInstanceAs (Decidable (Char.ofNat 0 ∉ s))

/-- Two keys are the same up to the case of ASCII letters. -/
def same_key (a b : CStr) : Prop := a.map g_ascii_tolower = b.map g_ascii_tolower

instance same_key_decidable (a b : CStr) : Decidable (same_key a b) :=
  inferInstanceAs (Decidable (a.map g_ascii_tolower = b.map g_ascii_tolower))

/-- The keys that the start-network handler recognises. -/
def start_network_keys : List CStr :=
  ["apn".toList, "3gpp-profile".toList, "3gpp2-profile".toList, "auth".toList,
   "username".toList, "password".toList, "autoconnect".toList, "ip-type".toList]

/-- The keys that the bind-mux handler recognises. -/
def bind_mux_keys : List CStr := ["mux-id".toList, "ep-iface-number".toList]

/-- A decimal digit, `0`..`9`. -/
def is_decimal_digit (c : Char) : Bool := '0' ≤ c ∧ c ≤ '9'

/-- A hexadecimal digit, `0`..`9`, `a`..`f` or `A`..`F`. -/
def is_hex_digit (c : Char) : Bool :=
  ('0' ≤ c ∧ c ≤ '9') ∨ ('a' ≤ c ∧ c ≤ 'f') ∨ ('A' ≤ c ∧ c ≤ 'F')

/-- The value of a hexadecimal digit. -/
def hex_digit_value (c : Char) : Nat :=
  if '0' ≤ c ∧ c ≤ '9' then c.toNat - '0'.toNat
  else if 'a' ≤ c ∧ c ≤ 'f' then c.toNat - 'a'.toNat + 10
  else c.toNat - 'A'.toNat + 10

/-- The number that a string of digits denotes in the given base. -/
def literal_value (base : Nat) (digits : CStr) : Nat :=
  digits.foldl (fun acc c => acc * base + hex_digit_value c) 0

/-- The number denoted by a well-formed stop literal, following the words of
the specification: `0x` followed by one or more hexadecimal digits, or one or
more decimal digits; `none` for any other string. -/
def stop_literal_value : CStr → Option Nat
  | '0' :: 'x' :: d :: ds =>
    if (d :: ds).all is_hex_digit then some (literal_value 16 (d :: ds)) else none
  | d :: ds =>
    if (d :: ds).all is_decimal_digit then some (literal_value 10 (d :: ds)) else none
  | [] => none

/-- The numbers libqmi-glib gives the members of `QmiWdsIpFamily` (the
enumeration is declared outside this file): 4 and 6 for IPv4 and IPv6, 8 for
the unspecified family.  None of them is 0, so the test `props.ip_type != 0`
of `start_network_input_create` holds for each. -/
def ip_family_number : QmiWdsIpFamily → Nat
  | .UNSPECIFIED => 8
  | .IPV4 => 4
  | .IPV6 => 6

/-- The string has a segment with the given key, up to letter case, and the
given value. -/
def supplies (str key value : CStr) : Prop :=
  ∃ k, same_key k key ∧ (k, some value) ∈ key_value_pairs str

/-- The entries of the split vector that the legacy branch of
`start_network_input_create` reads, by index and in program order: `split[0]`
always, `split[1]` when `props.apn` is set, `split[2]` when `props.auth_set`
holds, `split[3]` when `props.username` is set.  The vector of
`g_strsplit str` has the entries `0 .. (g_strsplit str).length`, the last one
being the `NULL` terminator. -/
def start_network_legacy_reads (str : CStr) (props : StartNetworkProperties) : List Nat :=
  let split := g_strsplit str
  let props1 := { props with apn := split[0]? }
  let reads_apn : List Nat := [0]
  let reads_test : List Nat := if props1.apn.isSome then [1] else []
  let with_auth :=
    match props1.apn, split[1]? with
    | some _, some auth_str =>
      match qmicli_read_authentication_from_string auth_str with
      | none => none
      | some a => some { props1 with auth := a, auth_set := true }
    | _, _ => some props1
  match with_auth with
  | none => reads_apn ++ reads_test
  | some props2 =>
    let reads_username : List Nat := if props2.auth_set then [2] else []
    let username := if props2.auth_set then split[2]? else none
    let reads_password : List Nat := if username.isSome then [3] else []
    reads_apn ++ reads_test ++ reads_username ++ reads_password

/-- The summary line an effect writes, if it writes one: profile index,
profile type and profile name. -/
def WalkEffect.summary_line : WalkEffect → Option (Nat × Nat × CStr)
  | .print (.profile profile_index profile_type profile_name) =>
    some (profile_index, profile_type, profile_name)
  | _ => none

/-- The `Get Profile Settings` request an effect sends, if it sends one:
profile type, profile index and timeout. -/
def WalkEffect.fetch : WalkEffect → Option (Nat × Nat × Nat)
  | .get_profile_settings profile_type profile_index timeout =>
    some (profile_type, profile_index, timeout)
  | _ => none

/-- The line an effect writes with `g_print`, if it writes one. -/
def WalkEffect.printed : WalkEffect → Option Line
  | .print line => some line
  | _ => none

/-- The completion signal an effect gives, if it gives one. -/
def WalkEffect.completion : WalkEffect → Option Bool
  | .session (.async_operation_done operation_status) => some operation_status
  | _ => none

/-- The summary lines among the effects of a walk, in order. -/
def summary_lines (trace : List WalkEffect) : List (Nat × Nat × CStr) :=
  trace.filterMap WalkEffect.summary_line

/-- The `Get Profile Settings` requests among the effects of a walk, in
order. -/
def profile_fetches (trace : List WalkEffect) : List (Nat × Nat × Nat) :=
  trace.filterMap WalkEffect.fetch

/-- The lines written with `g_print` among the effects of a walk, in order. -/
def printed_lines (trace : List WalkEffect) : List Line :=
  trace.filterMap WalkEffect.printed

/-- The completion signals among the effects of a walk, in order. -/
def walk_completions (trace : List WalkEffect) : List Bool :=
  trace.filterMap WalkEffect.completion

/-- The detail lines of one successful `Get Profile Settings` response: one
line for each field the response carries, in the order APN, PDP type,
username, password, authentication. -/
def detail_lines (output : ProfileSettings) : List Line :=
  (output.apn_name.map Line.apn).toList ++
  (output.pdp_type.map Line.pdp_type).toList ++
  (output.username.map Line.username).toList ++
  (output.password.map Line.password).toList ++
  (output.authentication.map Line.auth).toList

/-- What the walk is to write for one response: the detail lines of a
successful response, one error report for a failed one. -/
def fetch_report (res : AsyncResult ProfileSettings) : List WalkEffect :=
  match res with
  | .failed => [WalkEffect.printerr ErrorLine.operation_failed]
  | .error => [WalkEffect.printerr ErrorLine.couldnt_get_profile_settings]
  | .ok output => (detail_lines output).map WalkEffect.print

/-- What the walk is to do for one profile: write its summary line, send its
request, and report the response. -/
def item_trace (profile : Profile) (res : AsyncResult ProfileSettings) : List WalkEffect :=
  [WalkEffect.print (Line.profile profile.profile_index profile.profile_type profile.profile_name),
   WalkEffect.get_profile_settings profile.profile_type profile.profile_index 3] ++
  fetch_report res

/-- What the whole walk is to do for a profile list and one response per
profile. -/
def walk_trace (profile_list : List Profile) (results : List (AsyncResult ProfileSettings)) :
    List WalkEffect :=
  WalkEffect.print Line.profile_list_retrieved ::
    ((profile_list.zip results).flatMap (fun pr => item_trace pr.1 pr.2) ++
      [WalkEffect.session (Effect.async_operation_done true)])

/-- The lines the walk is to write for one profile and its response: the
summary line, then the detail lines when the response is a success. -/
def item_lines (profile : Profile) (res : AsyncResult ProfileSettings) : List Line :=
  Line.profile profile.profile_index profile.profile_type profile.profile_name ::
    (match res with
      | .ok output => detail_lines output
      | _ => [])

/-- The request the walk is to send for one profile. -/
def item_fetch (profile : Profile) : Nat × Nat × Nat :=
  (profile.profile_type, profile.profile_index, 3)

/-! ## Properties -/

theorem char_eq_of_toNat_eq (a b : Char) (h : a.toNat = b.toNat) : a = b := by
  apply Char.ext
  apply UInt32.ext
  exact h

theorem g_ascii_strcasecmp_eq_zero_iff (a b : CStr) (ha : c_string a) (hb : c_string b) :
    g_ascii_strcasecmp a b = 0 ↔ same_key a b := by
  induction a generalizing b with
  | nil =>
    cases b with
    | nil => simp [g_ascii_strcasecmp, same_key]
    | cons c2 s2 =>
      have hc : c2.toNat ≠ 0 := by
        intro h0
        apply hb
        have : c2 = Char.ofNat 0 := char_eq_of_toNat_eq _ _ h0
        simp [this]
      simp only [g_ascii_strcasecmp, same_key, List.map_nil, List.map_cons]
      constructor
      · intro h; omega
      · intro h; cases h
  | cons c1 s1 ih =>
    cases b with
    | nil =>
      have hc : c1.toNat ≠ 0 := by
        intro h0
        apply ha
        have : c1 = Char.ofNat 0 := char_eq_of_toNat_eq _ _ h0
        simp [this]
      simp only [g_ascii_strcasecmp, same_key, List.map_nil, List.map_cons]
      constructor
      · intro h; omega
      · intro h; cases h
    | cons c2 s2 =>
      have ha1 : c_string s1 := fun h => ha (List.mem_cons_of_mem _ h)
      have hb1 : c_string s2 := fun h => hb (List.mem_cons_of_mem _ h)
      simp only [g_ascii_strcasecmp, same_key, List.map_cons, List.cons.injEq]
      split_ifs with hne
      · constructor
        · intro h; omega
        · intro h; exact absurd (congrArg Char.toNat h.1) hne
      · have heq : g_ascii_tolower c1 = g_ascii_tolower c2 :=
          char_eq_of_toNat_eq _ _ (not_not.1 hne)
        rw [ih s2 ha1 hb1]
        simp [heq, same_key]


theorem key_match_iff (key K : CStr) (hkey : c_string key) (hK : c_string K)
    (hlow : K.map g_ascii_tolower = K) :
    g_ascii_strcasecmp key K = 0 ↔ key.map g_ascii_tolower = K := by
  rw [g_ascii_strcasecmp_eq_zero_iff key K hkey hK, same_key, hlow]

theorem start_handle_unknown_key (key : CStr) (hkey : c_string key)
    (hunk : key.map g_ascii_tolower ∉ start_network_keys) (value : Option CStr)
    (props : StartNetworkProperties) :
    (start_network_properties_handle key value props).1 = false := by
  simp only [start_network_keys, List.mem_cons, List.mem_singleton, not_or,
    List.not_mem_nil, not_false_eq_true, and_true] at hunk
  obtain ⟨h1, h2, h3, h4, h5, h6, h7, h8⟩ := hunk
  rw [← key_match_iff key _ hkey (by decide) (by decide)] at h1 h2 h3 h4 h5 h6 h7 h8
  unfold start_network_properties_handle
  split
  · rfl
  · rfl
  · simp only [h1, h2, h3, h4, h5, h6, h7, h8, false_and, if_false]

theorem bind_handle_unknown_key (key : CStr) (hkey : c_string key)
    (hunk : key.map g_ascii_tolower ∉ bind_mux_keys) (value : Option CStr)
    (props : BindMuxDataPortProperties) :
    (bind_mux_data_port_properties_handle key value props).1 = false := by
  simp only [bind_mux_keys, List.mem_cons, List.mem_singleton, not_or,
    List.not_mem_nil, not_false_eq_true, and_true] at hunk
  obtain ⟨h1, h2⟩ := hunk
  rw [← key_match_iff key _ hkey (by decide) (by decide)] at h1 h2
  unfold bind_mux_data_port_properties_handle
  split
  · rfl
  · rfl
  · simp only [h1, h2, if_false]

theorem parse_pairs_fails_of_mem {α : Type} (callback : CStr → Option CStr → α → Bool × α)
    (key : CStr) (value : Option CStr) (hfail : ∀ props, (callback key value props).1 = false)
    (pairs : List (CStr × Option CStr)) (hmem : (key, value) ∈ pairs) (props : α) :
    (parse_key_value_pairs callback pairs props).1 = false := by
  induction pairs generalizing props with
  | nil => cases hmem
  | cons kv rest ih =>
    obtain ⟨k, v⟩ := kv
    unfold parse_key_value_pairs
    split
    · next props1 heq =>
      rcases List.mem_cons.1 hmem with h | h
      · injection h with hk hv
        subst hk; subst hv
        have := hfail props
        rw [heq] at this
        cases this
      · exact ih h props1
    · rfl

theorem mem_of_mem_split_on (sep : Char) (s piece : CStr) (hp : piece ∈ split_on sep s)
    (c : Char) (hc : c ∈ piece) : c ∈ s := by
  induction s generalizing piece with
  | nil =>
    simp only [split_on, List.mem_singleton] at hp
    subst hp
    cases hc
  | cons d ds ih =>
    unfold split_on at hp
    split_ifs at hp with hd
    · rcases List.mem_cons.1 hp with h | h
      · subst h; cases hc
      · exact List.mem_cons_of_mem _ (ih piece h hc)
    · split at hp
      · next heq =>
        simp only [List.mem_singleton] at hp
        subst hp
        simp only [List.mem_singleton] at hc
        subst hc
        exact List.mem_cons_self _ _
      · next p ps heq =>
        rcases List.mem_cons.1 hp with h | h
        · subst h
          rcases List.mem_cons.1 hc with h2 | h2
          · subst h2; exact List.mem_cons_self _ _
          · exact List.mem_cons_of_mem _ (ih p (by rw [heq]; exact List.mem_cons_self _ _) h2)
        · exact List.mem_cons_of_mem _ (ih piece (by rw [heq]; exact List.mem_cons_of_mem _ h) hc)

theorem mem_of_mem_key (seg : CStr) (c : Char) (hc : c ∈ (split_key_value seg).1) : c ∈ seg := by
  induction seg with
  | nil => simp [split_key_value] at hc
  | cons d ds ih =>
    unfold split_key_value at hc
    split_ifs at hc with hd
    · cases hc
    · rcases List.mem_cons.1 hc with h | h
      · subst h; exact List.mem_cons_self _ _
      · exact List.mem_cons_of_mem _ (ih h)

theorem c_string_key (str : CStr) (hstr : c_string str) (key : CStr) (value : Option CStr)
    (hmem : (key, value) ∈ key_value_pairs str) : c_string key := by
  intro h0
  simp only [key_value_pairs, List.mem_map] at hmem
  obtain ⟨seg, hseg, heq⟩ := hmem
  have hk : key = (split_key_value seg).1 := by rw [heq]
  rw [hk] at h0
  exact hstr (mem_of_mem_split_on ',' str seg hseg _ (mem_of_mem_key seg _ h0))

theorem char_le_iff (a b : Char) : a ≤ b ↔ a.toNat ≤ b.toNat := by
  rw [Char.le_def, UInt32.le_def]
  rfl

theorem digit_value_decimal (c : Char) (h : is_decimal_digit c = true) :
    digit_value 10 c = some (hex_digit_value c) := by
  simp only [is_decimal_digit, decide_eq_true_eq] at h
  have h1 := (char_le_iff _ _).1 h.1
  have h2 := (char_le_iff _ _).1 h.2
  have e0 : ('0' : Char).toNat = 48 := rfl
  have e9 : ('9' : Char).toNat = 57 := rfl
  rw [e0] at h1
  rw [e9] at h2
  simp only [digit_value, hex_digit_value, h, and_self, if_true, e0]
  rw [if_pos (by omega)]

theorem digit_value_hex (c : Char) (h : is_hex_digit c = true) :
    digit_value 16 c = some (hex_digit_value c) := by
  simp only [is_hex_digit, decide_eq_true_eq] at h
  have e0 : ('0' : Char).toNat = 48 := rfl
  have e9 : ('9' : Char).toNat = 57 := rfl
  have ea : ('a' : Char).toNat = 97 := rfl
  have ef : ('f' : Char).toNat = 102 := rfl
  have eA : ('A' : Char).toNat = 65 := rfl
  have eF : ('F' : Char).toNat = 70 := rfl
  have ez : ('z' : Char).toNat = 122 := rfl
  have eZ : ('Z' : Char).toNat = 90 := rfl
  simp only [digit_value, hex_digit_value, char_le_iff, e0, e9, ea, ef, eA, eF, ez, eZ] at h ⊢
  split_ifs <;> first | omega | (simp; done) | (simp; omega)


theorem read_digits_eq_foldl (base : Nat) (valid : Char → Bool)
    (hvalid : ∀ c, valid c = true → digit_value base c = some (hex_digit_value c))
    (ds : CStr) (hds : ds.all valid = true) (acc : Nat) :
    read_digits base acc ds = ds.foldl (fun a c => a * base + hex_digit_value c) acc := by
  induction ds generalizing acc with
  | nil => rfl
  | cons d ds ih =>
    simp only [List.all_cons, Bool.and_eq_true] at hds
    simp only [read_digits, hvalid d hds.1, List.foldl_cons]
    exact ih hds.2 _

theorem skip_spaces_of_not_space (c : Char) (cs : CStr) (h : isspace c = false) :
    skip_spaces (c :: cs) = c :: cs := by
  simp [skip_spaces, h]

theorem hex_digit_not_space (c : Char) (h : is_hex_digit c = true) : isspace c = false := by
  have e0 : ('0' : Char).toNat = 48 := rfl
  have e9 : ('9' : Char).toNat = 57 := rfl
  have ea : ('a' : Char).toNat = 97 := rfl
  have ef : ('f' : Char).toNat = 102 := rfl
  have eA : ('A' : Char).toNat = 65 := rfl
  have eF : ('F' : Char).toNat = 70 := rfl
  simp only [is_hex_digit, char_le_iff, e0, e9, ea, ef, eA, eF, decide_eq_true_eq] at h
  have hne : c ≠ ' ' := by
    intro hc
    rw [hc] at h
    have : (' ' : Char).toNat = 32 := rfl
    omega
  simp only [isspace, decide_eq_false_iff_not]
  intro h2
  rcases h2 with h2 | h2
  · exact hne h2
  · omega

theorem decimal_digit_is_hex_digit (c : Char) (h : is_decimal_digit c = true) :
    is_hex_digit c = true := by
  simp only [is_decimal_digit, decide_eq_true_eq] at h
  simp [is_hex_digit, h]

theorem hex_digit_not_sign (c : Char) (h : is_hex_digit c = true) : c ≠ '-' ∧ c ≠ '+' := by
  have e0 : ('0' : Char).toNat = 48 := rfl
  have e9 : ('9' : Char).toNat = 57 := rfl
  have ea : ('a' : Char).toNat = 97 := rfl
  have ef : ('f' : Char).toNat = 102 := rfl
  have eA : ('A' : Char).toNat = 65 := rfl
  have eF : ('F' : Char).toNat = 70 := rfl
  simp only [is_hex_digit, char_le_iff, e0, e9, ea, ef, eA, eF, decide_eq_true_eq] at h
  constructor
  · intro hc
    rw [hc] at h
    have : ('-' : Char).toNat = 45 := rfl
    omega
  · intro hc
    rw [hc] at h
    have : ('+' : Char).toNat = 43 := rfl
    omega

theorem read_sign_of_not_sign (c : Char) (cs : CStr) (h : c ≠ '-' ∧ c ≠ '+') :
    read_sign (c :: cs) = (false, c :: cs) := by
  unfold read_sign
  split
  · next heq => simp only [List.cons.injEq] at heq; exact absurd heq.1 h.1
  · next heq => simp only [List.cons.injEq] at heq; exact absurd heq.1 h.2
  · rfl

theorem skip_0x_decimal (cs : CStr) : skip_0x 10 cs = cs := by
  unfold skip_0x
  split <;> simp

/-- On a string of decimal digits `strtoul` in base 10 reads the whole string. -/
theorem strtoul_decimal (d : Char) (ds : CStr) (h : (d :: ds).all is_decimal_digit = true) :
    strtoul (d :: ds) 10 =
      if literal_value 10 (d :: ds) > ULONG_MAX then ULONG_MAX else literal_value 10 (d :: ds) := by
  have hd : is_decimal_digit d = true := by
    simp only [List.all_cons, Bool.and_eq_true] at h; exact h.1
  have hx := decimal_digit_is_hex_digit d hd
  unfold strtoul
  rw [skip_spaces_of_not_space d ds (hex_digit_not_space d hx),
    read_sign_of_not_sign d ds (hex_digit_not_sign d hx)]
  simp only [skip_0x_decimal]
  rw [read_digits_eq_foldl 10 is_decimal_digit digit_value_decimal (d :: ds) h 0]
  simp [literal_value]

/-- On `0x` followed by hex digits `strtoul` in base 16 reads the digits. -/
theorem strtoul_hex (ds : CStr) (h : ds.all is_hex_digit = true) :
    strtoul ('0' :: 'x' :: ds) 16 =
      if literal_value 16 ds > ULONG_MAX then ULONG_MAX else literal_value 16 ds := by
  unfold strtoul
  rw [skip_spaces_of_not_space '0' _ (by decide), read_sign_of_not_sign '0' _ (by decide)]
  simp only [skip_0x, if_true]
  rw [read_digits_eq_foldl 16 is_hex_digit digit_value_hex ds h 0]
  simp [literal_value]

theorem disable_autoconnect_cons :
    "disable-autoconnect".toList = 'd' :: "isable-autoconnect".toList := rfl

/-- What the stop branch reads from a well-formed literal: its value, or
`ULONG_MAX` when the value does not fit `unsigned long`. -/
theorem stop_network_handle_of_literal (s : CStr) (v : Nat) (h : stop_literal_value s = some v) :
    s ≠ "disable-autoconnect".toList ∧
    stop_network_handle s = if v > ULONG_MAX then ULONG_MAX else v := by
  unfold stop_literal_value at h
  split at h
  · next d ds =>
    split at h
    · next hall =>
      simp only [Option.some.injEq] at h
      subst h
      refine ⟨?_, ?_⟩
      · rw [disable_autoconnect_cons]
        intro heq
        injection heq with h1 _
        exact absurd h1 (by decide)
      · simp only [stop_network_handle, g_str_has_prefix]
        rw [if_pos (by rfl)]
        exact strtoul_hex (d :: ds) hall
    · cases h
  · next d ds hne =>
    split at h
    · next hall =>
      simp only [Option.some.injEq] at h
      subst h
      have hd : is_decimal_digit d = true := by
        simp only [List.all_cons, Bool.and_eq_true] at hall; exact hall.1
      refine ⟨?_, ?_⟩
      · rw [disable_autoconnect_cons]
        intro heq
        injection heq with h1 _
        rw [h1] at hd
        exact absurd hd (by decide)
      · have hpre : g_str_has_prefix (d :: ds) "0x".toList = false := by
          cases ds with
          | nil =>
            show List.isPrefixOf ['0', 'x'] [d] = false
            simp [List.isPrefixOf]
          | cons e es =>
            have he : is_decimal_digit e = true := by
              simp only [List.all_cons, Bool.and_eq_true] at hall; exact hall.2.1
            have hex : e ≠ 'x' := by
              intro hx; rw [hx] at he; exact absurd he (by decide)
            show List.isPrefixOf ['0', 'x'] (d :: e :: es) = false
            simp only [List.isPrefixOf, Bool.and_true, Bool.and_eq_false_imp, beq_iff_eq,
              beq_eq_false_iff_ne, ne_eq]
            intro _ hxe
            exact hex hxe.symm
        simp only [stop_network_handle, hpre]
        exact strtoul_decimal d ds hall
    · cases h
  · cases h

theorem skip_spaces_decompose (s : CStr) :
    ∃ ws, s = ws ++ skip_spaces s ∧ ∀ c ∈ ws, isspace c = true := by
  induction s with
  | nil => exact ⟨[], rfl, by simp⟩
  | cons c cs ih =>
    unfold skip_spaces
    by_cases hc : isspace c = true
    · rw [if_pos hc]
      obtain ⟨ws, hws, hall⟩ := ih
      refine ⟨c :: ws, by rw [List.cons_append, ← hws], ?_⟩
      intro d hd
      rcases List.mem_cons.1 hd with h | h
      · rw [h]; exact hc
      · exact hall d h
    · rw [if_neg hc]
      exact ⟨[], rfl, by simp⟩

theorem read_sign_decompose (s : CStr) :
    ∃ sg, s = sg ++ (read_sign s).2 ∧ (sg = [] ∨ sg = ['+'] ∨ sg = ['-']) := by
  unfold read_sign
  split
  · exact ⟨['-'], rfl, Or.inr (Or.inr rfl)⟩
  · exact ⟨['+'], rfl, Or.inr (Or.inl rfl)⟩
  · exact ⟨[], rfl, Or.inl rfl⟩

theorem read_digits_ne_zero (base : Nat) (cs : CStr) (h : read_digits base 0 cs ≠ 0) :
    ∃ d rest, cs = d :: rest ∧ (digit_value base d).isSome = true := by
  cases cs with
  | nil => exact absurd rfl h
  | cons d rest =>
    refine ⟨d, rest, rfl, ?_⟩
    unfold read_digits at h
    split at h
    · next v hv => rw [hv]; rfl
    · exact absurd rfl h

theorem decimal_digit_of_digit_value (c : Char) (h : (digit_value 10 c).isSome = true) :
    is_decimal_digit c = true := by
  have e0 : ('0' : Char).toNat = 48 := rfl
  have e9 : ('9' : Char).toNat = 57 := rfl
  have ea : ('a' : Char).toNat = 97 := rfl
  have eA : ('A' : Char).toNat = 65 := rfl
  have ez : ('z' : Char).toNat = 122 := rfl
  have eZ : ('Z' : Char).toNat = 90 := rfl
  simp only [digit_value, is_decimal_digit, char_le_iff, e0, e9, ea, eA, ez, eZ,
    decide_eq_true_eq] at h ⊢
  split_ifs at h <;> first | omega | simp at h

theorem hex_digit_of_digit_value (c : Char) (h : (digit_value 16 c).isSome = true) :
    is_hex_digit c = true := by
  have e0 : ('0' : Char).toNat = 48 := rfl
  have e9 : ('9' : Char).toNat = 57 := rfl
  have ea : ('a' : Char).toNat = 97 := rfl
  have ef : ('f' : Char).toNat = 102 := rfl
  have eA : ('A' : Char).toNat = 65 := rfl
  have eF : ('F' : Char).toNat = 70 := rfl
  have ez : ('z' : Char).toNat = 122 := rfl
  have eZ : ('Z' : Char).toNat = 90 := rfl
  simp only [digit_value, is_hex_digit, char_le_iff, e0, e9, ea, ef, eA, eF, ez, eZ,
    decide_eq_true_eq] at h ⊢
  split_ifs at h <;> first | omega | (simp at h; done) | (simp at h; omega)

theorem strtoul_ne_zero (s : CStr) (base : Nat) (h : strtoul s base ≠ 0) :
    read_digits base 0 (skip_0x base (read_sign (skip_spaces s)).2) ≠ 0 := by
  intro h0
  apply h
  unfold strtoul
  simp only [h0]
  simp [ULONG_MAX]

/-- A string from which the stop branch reads a nonzero number starts with
`0x` and a hexadecimal digit, or, after white space and an optional sign,
with a decimal digit. -/
theorem stop_network_handle_ne_zero (s : CStr) (h : stop_network_handle s ≠ 0) :
    (∃ d rest, s = '0' :: 'x' :: d :: rest ∧ is_hex_digit d = true) ∨
    (∃ ws sg d rest, s = ws ++ sg ++ d :: rest ∧ (∀ c ∈ ws, isspace c = true) ∧
      (sg = [] ∨ sg = ['+'] ∨ sg = ['-']) ∧ is_decimal_digit d = true) := by
  unfold stop_network_handle at h
  split_ifs at h with hp
  · left
    have hs : ∃ t, s = '0' :: 'x' :: t := by
      have hp2 : List.isPrefixOf ['0', 'x'] s = true := hp
      rw [List.isPrefixOf_iff_prefix] at hp2
      obtain ⟨t, ht⟩ := hp2
      exact ⟨t, ht.symm⟩
    obtain ⟨t, rfl⟩ := hs
    have h1 := strtoul_ne_zero _ _ h
    rw [skip_spaces_of_not_space '0' _ (by decide), read_sign_of_not_sign '0' _ (by decide)] at h1
    simp only [skip_0x, if_true] at h1
    obtain ⟨d, rest, rfl, hd⟩ := read_digits_ne_zero 16 t h1
    exact ⟨d, rest, rfl, hex_digit_of_digit_value d hd⟩
  · right
    have h1 := strtoul_ne_zero _ _ h
    rw [skip_0x_decimal] at h1
    obtain ⟨d, rest, hrest, hd⟩ := read_digits_ne_zero 10 _ h1
    obtain ⟨ws, hws, hall⟩ := skip_spaces_decompose s
    obtain ⟨sg, hsg, hsign⟩ := read_sign_decompose (skip_spaces s)
    refine ⟨ws, sg, d, rest, ?_, hall, hsign, decimal_digit_of_digit_value d hd⟩
    rw [List.append_assoc, ← hrest, ← hsg, ← hws]


theorem strtol_ne_zero (s : CStr) (h : strtol s ≠ 0) :
    read_digits 10 0 (read_sign (skip_spaces s)).2 ≠ 0 := by
  intro h0
  apply h
  unfold strtol
  simp only [h0]
  simp

theorem atoi_ne_zero (s : CStr) (h : atoi s ≠ 0) : strtol s ≠ 0 := by
  intro h0
  apply h
  unfold atoi
  rw [h0]
  decide

/-- A string from which `atoi` reads a nonzero number starts, after white
space and an optional sign, with a decimal digit. -/
theorem atoi_ne_zero_decompose (s : CStr) (h : atoi s ≠ 0) :
    ∃ ws sg d rest, s = ws ++ sg ++ d :: rest ∧ (∀ c ∈ ws, isspace c = true) ∧
      (sg = [] ∨ sg = ['+'] ∨ sg = ['-']) ∧ is_decimal_digit d = true := by
  have h1 := strtol_ne_zero s (atoi_ne_zero s h)
  obtain ⟨d, rest, hrest, hd⟩ := read_digits_ne_zero 10 _ h1
  obtain ⟨ws, hws, hall⟩ := skip_spaces_decompose s
  obtain ⟨sg, hsg, hsign⟩ := read_sign_decompose (skip_spaces s)
  refine ⟨ws, sg, d, rest, ?_, hall, hsign, decimal_digit_of_digit_value d hd⟩
  rw [List.append_assoc, ← hrest, ← hsg, ← hws]

theorem split_on_of_not_mem (sep : Char) (s : CStr) (h : sep ∉ s) : split_on sep s = [s] := by
  induction s with
  | nil => rfl
  | cons c cs ih =>
    have hc : c ≠ sep := fun e => h (by rw [e]; exact List.mem_cons_self _ _)
    have hcs : sep ∉ cs := fun e => h (List.mem_cons_of_mem _ e)
    unfold split_on
    rw [if_neg hc, ih hcs]

theorem split_on_append (sep : Char) (a b : CStr) (h : sep ∉ a) :
    split_on sep (a ++ sep :: b) = a :: split_on sep b := by
  induction a with
  | nil =>
    show split_on sep (sep :: b) = [] :: split_on sep b
    rw [split_on, if_pos rfl]
  | cons c cs ih =>
    have hc : c ≠ sep := fun e => h (by rw [e]; exact List.mem_cons_self _ _)
    have hcs : sep ∉ cs := fun e => h (List.mem_cons_of_mem _ e)
    show split_on sep (c :: (cs ++ sep :: b)) = (c :: cs) :: split_on sep b
    rw [split_on, if_neg hc, ih hcs]

theorem split_key_value_append (k v : CStr) (h : '=' ∉ k) :
    split_key_value (k ++ '=' :: v) = (k, some v) := by
  induction k with
  | nil =>
    show split_key_value ('=' :: v) = ([], some v)
    rw [split_key_value, if_pos rfl]
  | cons c cs ih =>
    have hc : c ≠ '=' := fun e => h (by rw [e]; exact List.mem_cons_self _ _)
    have hcs : '=' ∉ cs := fun e => h (List.mem_cons_of_mem _ e)
    show split_key_value (c :: (cs ++ '=' :: v)) = (c :: cs, some v)
    rw [split_key_value, if_neg hc, ih hcs]

theorem split_key_value_of_not_mem (k : CStr) (h : '=' ∉ k) :
    split_key_value k = (k, none) := by
  induction k with
  | nil => rfl
  | cons c cs ih =>
    have hc : c ≠ '=' := fun e => h (by rw [e]; exact List.mem_cons_self _ _)
    have hcs : '=' ∉ cs := fun e => h (List.mem_cons_of_mem _ e)
    rw [split_key_value, if_neg hc, ih hcs]

theorem start_handle_apn (c : Char) (cs : CStr) (props : StartNetworkProperties)
    (hunset : props.apn = none) :
    start_network_properties_handle "apn".toList (some (c :: cs)) props =
      (true, { props with apn := some (c :: cs) }) := by
  have e1 : g_ascii_strcasecmp "apn".toList "apn".toList = 0 := by decide
  unfold start_network_properties_handle
  simp only [e1, hunset, and_self, if_true]

theorem start_handle_ip_type (c : Char) (cs : CStr) (props : StartNetworkProperties)
    (hunset : props.ip_type = .UNSPECIFIED) :
    start_network_properties_handle "ip-type".toList (some (c :: cs)) props =
      (if atoi (c :: cs) = 4 then (true, { props with ip_type := .IPV4 })
       else if atoi (c :: cs) = 6 then (true, { props with ip_type := .IPV6 })
       else (false, props)) := by
  have n1 : g_ascii_strcasecmp "ip-type".toList "apn".toList ≠ 0 := by decide
  have n2 : g_ascii_strcasecmp "ip-type".toList "3gpp-profile".toList ≠ 0 := by decide
  have n3 : g_ascii_strcasecmp "ip-type".toList "3gpp2-profile".toList ≠ 0 := by decide
  have n4 : g_ascii_strcasecmp "ip-type".toList "auth".toList ≠ 0 := by decide
  have n5 : g_ascii_strcasecmp "ip-type".toList "username".toList ≠ 0 := by decide
  have n6 : g_ascii_strcasecmp "ip-type".toList "password".toList ≠ 0 := by decide
  have n7 : g_ascii_strcasecmp "ip-type".toList "autoconnect".toList ≠ 0 := by decide
  have e8 : g_ascii_strcasecmp "ip-type".toList "ip-type".toList = 0 := by decide
  unfold start_network_properties_handle
  simp only [n1, n2, n3, n4, n5, n6, n7, e8, hunset, false_and, if_false, true_and, if_true]

theorem g_ascii_tolower_toNat_eq_zero (c : Char) (h : (g_ascii_tolower c).toNat = 0) :
    c.toNat = 0 := by
  unfold g_ascii_tolower at h
  split_ifs at h with hc
  · have key : ∀ n < 91, 65 ≤ n → (Char.ofNat (n + 32)).toNat ≠ 0 := by decide
    have e0 : ('A' : Char).toNat = 65 := rfl
    have e9 : ('Z' : Char).toNat = 90 := rfl
    rw [char_le_iff, char_le_iff, e0, e9] at hc
    exact absurd h (key c.toNat (by omega) hc.1)
  · exact h

theorem g_ascii_tolower_toNat_zero_iff (c d : Char) (h : g_ascii_tolower c = g_ascii_tolower d) :
    c.toNat = 0 ↔ d.toNat = 0 := by
  constructor
  · intro hc
    have : c = Char.ofNat 0 := char_eq_of_toNat_eq _ _ hc
    apply g_ascii_tolower_toNat_eq_zero
    rw [← h, this]
    rfl
  · intro hd
    have : d = Char.ofNat 0 := char_eq_of_toNat_eq _ _ hd
    apply g_ascii_tolower_toNat_eq_zero
    rw [h, this]
    rfl

/-- Comparing with a fixed string gives zero for both of two keys that differ
in letter case only, or for neither. -/
theorem g_ascii_strcasecmp_congr (k k1 K : CStr) (h : same_key k k1) :
    g_ascii_strcasecmp k K = 0 ↔ g_ascii_strcasecmp k1 K = 0 := by
  induction k generalizing k1 K with
  | nil =>
    cases k1 with
    | nil => rfl
    | cons c s => simp [same_key] at h
  | cons c s ih =>
    cases k1 with
    | nil => simp [same_key] at h
    | cons c1 s1 =>
      simp only [same_key, List.map_cons, List.cons.injEq] at h
      cases K with
      | nil =>
        simp only [g_ascii_strcasecmp]
        have := g_ascii_tolower_toNat_zero_iff c c1 h.1
        omega
      | cons c2 s2 =>
        simp only [g_ascii_strcasecmp, h.1]
        split_ifs with hne
        · rfl
        · exact ih s1 s2 h.2

/-- Inversion of a successful call of the bind-mux handler. -/
theorem bind_handle_success_cases (key : CStr) (value : Option CStr)
    (p p1 : BindMuxDataPortProperties)
    (h : bind_mux_data_port_properties_handle key value p = (true, p1)) :
    ∃ v, value = some v ∧ v ≠ [] ∧
      ((g_ascii_strcasecmp key "mux-id".toList = 0 ∧
          p1 = { p with mux_id := to_guint32 (atoi v) }) ∨
       (g_ascii_strcasecmp key "ep-iface-number".toList = 0 ∧
          p1 = { p with ep_iface_number := to_guint32 (atoi v) })) := by
  unfold bind_mux_data_port_properties_handle at h
  split at h
  · cases h
  · cases h
  · split at h
    · next c =>
      injection h with h1 h2
      exact ⟨_, rfl, List.cons_ne_nil _ _, Or.inl ⟨c, h2.symm⟩⟩
    · split at h
      · next c =>
        injection h with h1 h2
        exact ⟨_, rfl, List.cons_ne_nil _ _, Or.inr ⟨c, h2.symm⟩⟩
      · cases h

/-- What a successful bind-mux parse leaves in the record: the two fixed
fields are untouched, and each number is either untouched or converted from a
supplied value. -/
theorem bind_parse_fields (pairs : List (CStr × Option CStr))
    (hc : ∀ kv ∈ pairs, c_string kv.1) (p0 p : BindMuxDataPortProperties)
    (h : parse_key_value_pairs bind_mux_data_port_properties_handle pairs p0 = (true, p)) :
    p.ep_type = p0.ep_type ∧ p.client_type = p0.client_type ∧
    (p.mux_id = p0.mux_id ∨
      ∃ k w, same_key k "mux-id".toList ∧ (k, some w) ∈ pairs ∧
        p.mux_id = to_guint32 (atoi w)) ∧
    (p.ep_iface_number = p0.ep_iface_number ∨
      ∃ k w, same_key k "ep-iface-number".toList ∧ (k, some w) ∈ pairs ∧
        p.ep_iface_number = to_guint32 (atoi w)) := by
  induction pairs generalizing p0 with
  | nil =>
    simp only [parse_key_value_pairs, Prod.mk.injEq, true_and] at h
    subst h
    exact ⟨rfl, rfl, Or.inl rfl, Or.inl rfl⟩
  | cons kv rest ih =>
    obtain ⟨k, v⟩ := kv
    unfold parse_key_value_pairs at h
    split at h
    · next p1 heq =>
      have hk : c_string k := hc (k, v) (List.mem_cons_self _ _)
      have hrest : ∀ kv ∈ rest, c_string kv.1 := fun kv hm => hc kv (List.mem_cons_of_mem _ hm)
      obtain ⟨i1, i2, i3, i4⟩ := ih hrest p1 h
      have lift : ∀ (K : CStr) (f : BindMuxDataPortProperties → Nat),
          (∃ k w, same_key k K ∧ (k, some w) ∈ rest ∧ f p = to_guint32 (atoi w)) →
          ∃ k1 w, same_key k1 K ∧ (k1, some w) ∈ (k, v) :: rest ∧ f p = to_guint32 (atoi w) :=
        fun K f ⟨k1, w, a, b, c⟩ => ⟨k1, w, a, List.mem_cons_of_mem _ b, c⟩
      obtain ⟨w, hv, _, hcase⟩ := bind_handle_success_cases k v p0 p1 heq
      subst hv
      rcases hcase with ⟨hm, rfl⟩ | ⟨hm, rfl⟩
      · have hs : same_key k "mux-id".toList :=
          (g_ascii_strcasecmp_eq_zero_iff k _ hk (by decide)).1 hm
        refine ⟨i1, i2, ?_, ?_⟩
        · rcases i3 with e | e
          · exact Or.inr ⟨k, w, hs, List.mem_cons_self _ _, e⟩
          · exact Or.inr (lift _ (fun q => q.mux_id) e)
        · rcases i4 with e | e
          · exact Or.inl e
          · exact Or.inr (lift _ (fun q => q.ep_iface_number) e)
      · have hs : same_key k "ep-iface-number".toList :=
          (g_ascii_strcasecmp_eq_zero_iff k _ hk (by decide)).1 hm
        refine ⟨i1, i2, ?_, ?_⟩
        · rcases i3 with e | e
          · exact Or.inl e
          · exact Or.inr (lift _ (fun q => q.mux_id) e)
        · rcases i4 with e | e
          · exact Or.inr ⟨k, w, hs, List.mem_cons_self _ _, e⟩
          · exact Or.inr (lift _ (fun q => q.ep_iface_number) e)
    · cases h

/-- A successful build goes through a successful parse whose record holds
neither sentinel. -/
theorem bind_input_create_success (str : CStr) (input : QmiMessageWdsBindMuxDataPortInput)
    (h : bind_mux_data_port_input_create str = some input) :
    ∃ p, parse_key_value_pairs bind_mux_data_port_properties_handle (key_value_pairs str)
        bind_mux_data_port_properties_init = (true, p) ∧
      p.mux_id ≠ QMI_WDS_MUX_ID_UNDEFINED ∧
      p.ep_iface_number ≠ to_guint32 QMI_WDS_ENDPOINT_INTERFACE_NUMBER_UNDEFINED ∧
      input = { endpoint_type := p.ep_type, endpoint_interface_number := p.ep_iface_number,
                mux_id := p.mux_id, client_type := p.client_type } := by
  unfold bind_mux_data_port_input_create at h
  split_ifs at h with h1 h2
  split at h
  · cases h
  · next p heq =>
    split_ifs at h with h3
    injection h with h
    exact ⟨p, heq, fun e => h3 (Or.inl e), fun e => h3 (Or.inr e), h.symm⟩

/-- The fields of a request that the bind-mux builder returns, in terms of
what the string supplies. -/
theorem bind_input_fields (str : CStr) (input : QmiMessageWdsBindMuxDataPortInput)
    (hstr : c_string str) (h : bind_mux_data_port_input_create str = some input) :
    input.endpoint_type = .HSUSB ∧ input.client_type = .TETHERED ∧
    (∃ w, supplies str "mux-id".toList w ∧ input.mux_id = to_guint32 (atoi w)) ∧
    (∃ w, supplies str "ep-iface-number".toList w ∧
      input.endpoint_interface_number = to_guint32 (atoi w)) := by
  obtain ⟨p, hp, hm, he, rfl⟩ := bind_input_create_success str input h
  obtain ⟨f1, f2, f3, f4⟩ := bind_parse_fields (key_value_pairs str)
    (fun kv hkv => c_string_key str hstr kv.1 kv.2 hkv) _ p hp
  refine ⟨f1, f2, ?_, ?_⟩
  · rcases f3 with e | ⟨k, w, a, b, c⟩
    · exact absurd e hm
    · exact ⟨w, ⟨k, a, b⟩, c⟩
  · rcases f4 with e | ⟨k, w, a, b, c⟩
    · exact absurd e he
    · exact ⟨w, ⟨k, a, b⟩, c⟩

/-- The callback `get_profile_settings_ready` writes the report of the response
and then does what `get_next_profile_settings` does at the next index. -/
theorem get_profile_settings_ready_eq (ctx : Context) (inner_ctx : GetProfileListContext)
    (res : AsyncResult ProfileSettings) :
    get_profile_settings_ready ctx inner_ctx res =
      ((get_next_profile_settings ctx
          { inner_ctx with i := (inner_ctx.i + 1) % 2 ^ 32 }).1,
       (get_next_profile_settings ctx
          { inner_ctx with i := (inner_ctx.i + 1) % 2 ^ 32 }).2.1,
       fetch_report res ++
         (get_next_profile_settings ctx
            { inner_ctx with i := (inner_ctx.i + 1) % 2 ^ 32 }).2.2) := by
  cases res with
  | failed => rfl
  | error => rfl
  | ok output =>
    obtain ⟨a, b, c, d, e⟩ := output
    cases a <;> cases b <;> cases c <;> cases d <;> cases e <;> rfl

/-- At an index inside the list `get_next_profile_settings` writes the summary
line of that profile and sends its request. -/
theorem get_next_profile_settings_inside (ctx : Context) (pre suf : List Profile)
    (p : Profile) :
    get_next_profile_settings ctx { i := pre.length, profile_list := pre ++ p :: suf } =
      (some ctx, some { i := pre.length, profile_list := pre ++ p :: suf },
        [WalkEffect.print (Line.profile p.profile_index p.profile_type p.profile_name),
         WalkEffect.get_profile_settings p.profile_type p.profile_index 3]) := by
  have h : ¬ pre.length ≥ (pre ++ p :: suf).length := by simp
  have hget : (pre ++ p :: suf).get ⟨pre.length, Nat.lt_of_not_ge h⟩ = p := by
    simp [List.getElem_append_right]
  simp only [get_next_profile_settings, dif_neg h, hget]

/-- At the end of the list `get_next_profile_settings` shuts the operation down
with success. -/
theorem get_next_profile_settings_done (ctx : Context) (i : Nat) (ps : List Profile)
    (h : i ≥ ps.length) :
    get_next_profile_settings ctx { i := i, profile_list := ps } = walk_shutdown ctx true := by
  simp only [get_next_profile_settings, dif_pos h]

/-- The report of a response sends no request. -/
theorem fetch_report_no_fetch (res : AsyncResult ProfileSettings) :
    (fetch_report res).filterMap WalkEffect.fetch = [] := by
  cases res with
  | failed => rfl
  | error => rfl
  | ok output =>
    simp only [fetch_report, List.filterMap_map]
    apply List.filterMap_eq_nil_iff.mpr
    intro a _
    rfl

/-- The report of a response gives no completion signal. -/
theorem fetch_report_no_completion (res : AsyncResult ProfileSettings) :
    (fetch_report res).filterMap WalkEffect.completion = [] := by
  cases res with
  | failed => rfl
  | error => rfl
  | ok output =>
    simp only [fetch_report, List.filterMap_map]
    apply List.filterMap_eq_nil_iff.mpr
    intro a _
    rfl

/-- The report of a response writes no summary line. -/
theorem fetch_report_no_summary (res : AsyncResult ProfileSettings) :
    (fetch_report res).filterMap WalkEffect.summary_line = [] := by
  cases res with
  | failed => rfl
  | error => rfl
  | ok output =>
    obtain ⟨a, b, c, d, e⟩ := output
    cases a <;> cases b <;> cases c <;> cases d <;> cases e <;> rfl

/-- The lines a report writes with `g_print` are the detail lines of a
successful response. -/
theorem fetch_report_printed (res : AsyncResult ProfileSettings) :
    (fetch_report res).filterMap WalkEffect.printed =
      (match res with
        | .ok output => detail_lines output
        | _ => []) := by
  cases res with
  | failed => rfl
  | error => rfl
  | ok output =>
    simp only [fetch_report, List.filterMap_map]
    have : (WalkEffect.printed ∘ WalkEffect.print) = some := rfl
    rw [this, List.filterMap_some]

/-- Requests awaiting completion are counted from the requests sent. -/
theorem countP_is_get_profile_settings (trace : List WalkEffect) :
    trace.countP WalkEffect.is_get_profile_settings = (profile_fetches trace).length := by
  induction trace with
  | nil => rfl
  | cons e rest ih =>
    cases e <;>
      simp [profile_fetches, List.filterMap_cons, WalkEffect.fetch,
        WalkEffect.is_get_profile_settings, List.countP_cons] at ih ⊢ <;>
      exact ih

/-- One completion while the walk waits for the response of the profile at
index `pre.length`. -/
theorem walk_step_eq (ctx : Context) (pre suf : List Profile) (p : Profile)
    (trace : List WalkEffect) (handled : Nat) (res : AsyncResult ProfileSettings)
    (hlen : (pre ++ p :: suf).length < 2 ^ 32)
    (hout : (profile_fetches trace).length = handled + 1) :
    ProfileWalk.step
        { ctx := some ctx,
          inner_ctx := some { i := pre.length, profile_list := pre ++ p :: suf },
          trace := trace, handled := handled } res =
      some
        { ctx := (get_next_profile_settings ctx
              { i := pre.length + 1, profile_list := pre ++ p :: suf }).1,
          inner_ctx := (get_next_profile_settings ctx
              { i := pre.length + 1, profile_list := pre ++ p :: suf }).2.1,
          trace := trace ++ (fetch_report res ++
            (get_next_profile_settings ctx
              { i := pre.length + 1, profile_list := pre ++ p :: suf }).2.2),
          handled := handled + 1 } := by
  have hmod : (pre.length + 1) % 2 ^ 32 = pre.length + 1 := by
    apply Nat.mod_eq_of_lt
    simp only [List.length_append, List.length_cons] at hlen
    omega
  have hpos : 0 < ProfileWalk.outstanding
      { ctx := some ctx,
        inner_ctx := some { i := pre.length, profile_list := pre ++ p :: suf },
        trace := trace, handled := handled } := by
    simp only [ProfileWalk.outstanding, countP_is_get_profile_settings, hout]
    omega
  simp only [ProfileWalk.step, if_pos hpos, get_profile_settings_ready_eq, hmod]

/-- A walk that waits for the response of the profile at index `pre.length`
and receives one response for it and for each later profile: it reports every
response, writes the summary line and sends the request of every later
profile, and ends with the shutdown. -/
theorem walk_run_rest (ctx : Context) (suf : List Profile) :
    ∀ (pre : List Profile) (p : Profile) (trace : List WalkEffect) (handled : Nat)
      (res : AsyncResult ProfileSettings) (rest : List (AsyncResult ProfileSettings)),
      (pre ++ p :: suf).length < 2 ^ 32 →
      (profile_fetches trace).length = handled + 1 →
      rest.length = suf.length →
      ProfileWalk.run
          { ctx := some ctx,
            inner_ctx := some { i := pre.length, profile_list := pre ++ p :: suf },
            trace := trace, handled := handled } (res :: rest) =
        some
          { ctx := none, inner_ctx := none,
            trace := trace ++ (fetch_report res ++
              ((suf.zip rest).flatMap (fun pr => item_trace pr.1 pr.2) ++
                (context_free ctx ++ [Effect.async_operation_done true]).map
                  WalkEffect.session)),
            handled := handled + suf.length + 1 } := by
  induction suf with
  | nil =>
    intro pre p trace handled res rest hlen hout hrest
    have hr : rest = [] := List.length_eq_zero.mp hrest
    subst hr
    have hdone := get_next_profile_settings_done ctx (pre.length + 1) (pre ++ [p]) (by simp)
    simp only [ProfileWalk.run, walk_step_eq ctx pre [] p trace handled res hlen hout, hdone]
    simp [walk_shutdown, operation_shutdown]
  | cons q suf ih =>
    intro pre p trace handled res rest hlen hout hrest
    cases rest with
    | nil => simp at hrest
    | cons res1 rest1 =>
      have hl : pre ++ p :: q :: suf = (pre ++ [p]) ++ q :: suf := by simp
      have hi : pre.length + 1 = (pre ++ [p]).length := by simp
      have hnext := get_next_profile_settings_inside ctx (pre ++ [p]) suf q
      rw [← hl, ← hi] at hnext
      have hstep := walk_step_eq ctx pre (q :: suf) p trace handled res hlen hout
      rw [hnext] at hstep
      rw [ProfileWalk.run, hstep]
      simp only []
      have hout1 : (profile_fetches (trace ++ (fetch_report res ++
          [WalkEffect.print (Line.profile q.profile_index q.profile_type q.profile_name),
           WalkEffect.get_profile_settings q.profile_type q.profile_index 3]))).length =
          (handled + 1) + 1 := by
        simp only [profile_fetches, List.filterMap_append, fetch_report_no_fetch,
          List.length_append] at hout ⊢
        simp [WalkEffect.fetch, hout]
      have hlen1 : ((pre ++ [p]) ++ q :: suf).length < 2 ^ 32 := by rw [← hl]; exact hlen
      have hrest1 : rest1.length = suf.length := by simpa using hrest
      have key := ih (pre ++ [p]) q _ (handled + 1) res1 rest1 hlen1 hout1 hrest1
      rw [← hl, ← hi] at key
      rw [key]
      simp only [List.zip_cons_cons, List.flatMap_cons, item_trace, List.length_cons,
        List.append_assoc, List.cons_append, List.nil_append, Option.some.injEq,
        ProfileWalk.mk.injEq, true_and]
      omega

/-- No completion runs once the walk has shut down. -/
theorem walk_run_released (trace : List WalkEffect) (handled : Nat)
    (res : AsyncResult ProfileSettings) (rest : List (AsyncResult ProfileSettings)) :
    ProfileWalk.run { ctx := none, inner_ctx := none, trace := trace, handled := handled }
      (res :: rest) = none := rfl

/-- The state of a walk after any number of completions, while it waits for
the response of the profile at index `pre.length`: as long as a profile is
left the walk holds its record at the next index with one more request sent
and no completion signal; after the last response it has released its record
and signalled success; no further completion can run. -/
theorem walk_run_prefix (suf : List Profile) :
    ∀ (pre : List Profile) (p : Profile) (trace : List WalkEffect)
      (results : List (AsyncResult ProfileSettings)),
      (pre ++ p :: suf).length < 2 ^ 32 →
      profile_fetches trace = (pre ++ [p]).map item_fetch →
      walk_completions trace = [] →
      (results.length ≤ suf.length + 1 →
        ∃ w, ProfileWalk.run
            { ctx := some context_init,
              inner_ctx := some { i := pre.length, profile_list := pre ++ p :: suf },
              trace := trace, handled := pre.length } results = some w ∧
          w.handled = pre.length + results.length ∧
          profile_fetches w.trace =
            ((pre ++ p :: suf).take (pre.length + results.length + 1)).map item_fetch ∧
          (results.length ≤ suf.length →
            w.ctx = some context_init ∧
            w.inner_ctx = some { i := pre.length + results.length,
                                 profile_list := pre ++ p :: suf } ∧
            walk_completions w.trace = []) ∧
          (results.length = suf.length + 1 →
            w.ctx = none ∧ w.inner_ctx = none ∧ walk_completions w.trace = [true])) ∧
      (suf.length + 1 < results.length →
        ProfileWalk.run
            { ctx := some context_init,
              inner_ctx := some { i := pre.length, profile_list := pre ++ p :: suf },
              trace := trace, handled := pre.length } results = none) := by
  have htake : ∀ (pre : List Profile) (p : Profile) (suf : List Profile),
      (pre ++ p :: suf).take (pre.length + 1) = pre ++ [p] := by
    intro pre p suf
    have : pre ++ p :: suf = (pre ++ [p]) ++ suf := by simp
    rw [this]
    exact List.take_left' (by simp)
  have hbase : ∀ (pre : List Profile) (p : Profile) (suf : List Profile)
      (trace : List WalkEffect),
      profile_fetches trace = (pre ++ [p]).map item_fetch →
      walk_completions trace = [] →
      ∃ w, ProfileWalk.run
          { ctx := some context_init,
            inner_ctx := some { i := pre.length, profile_list := pre ++ p :: suf },
            trace := trace, handled := pre.length } [] = some w ∧
        w.handled = pre.length + ([] : List (AsyncResult ProfileSettings)).length ∧
        profile_fetches w.trace =
          ((pre ++ p :: suf).take
            (pre.length + ([] : List (AsyncResult ProfileSettings)).length + 1)).map item_fetch ∧
        (([] : List (AsyncResult ProfileSettings)).length ≤ suf.length →
          w.ctx = some context_init ∧
          w.inner_ctx = some { i := pre.length +
                                 ([] : List (AsyncResult ProfileSettings)).length,
                               profile_list := pre ++ p :: suf } ∧
          walk_completions w.trace = []) ∧
        (([] : List (AsyncResult ProfileSettings)).length = suf.length + 1 →
          w.ctx = none ∧ w.inner_ctx = none ∧ walk_completions w.trace = [true]) := by
    intro pre p suf trace hf hc
    refine ⟨_, rfl, rfl, ?_, ?_, ?_⟩
    · simp only [List.length_nil, Nat.add_zero, htake]
      exact hf
    · intro _
      exact ⟨rfl, rfl, hc⟩
    · intro h
      simp at h
  induction suf with
  | nil =>
    intro pre p trace results hlen hf hc
    have hout : (profile_fetches trace).length = pre.length + 1 := by simp [hf]
    cases results with
    | nil => exact ⟨fun _ => hbase pre p [] trace hf hc, fun h => by simp at h⟩
    | cons res rest =>
      have hdone := get_next_profile_settings_done context_init (pre.length + 1) (pre ++ [p])
        (by simp)
      have hstep := walk_step_eq context_init pre [] p trace pre.length res hlen hout
      rw [hdone] at hstep
      cases rest with
      | nil =>
        refine ⟨fun _ => ⟨_, by rw [ProfileWalk.run, hstep]; rfl, rfl, ?_, ?_, ?_⟩,
          fun h => by simp at h⟩
        · simp only [profile_fetches, List.filterMap_append, fetch_report_no_fetch] at hf ⊢
          rw [hf]
          simp [walk_shutdown, operation_shutdown, context_free, context_init, WalkEffect.fetch]
        · intro h
          simp at h
        · intro _
          refine ⟨rfl, rfl, ?_⟩
          simp only [walk_completions, List.filterMap_append, fetch_report_no_completion] at hc ⊢
          rw [hc]
          rfl
      | cons res1 rest1 =>
        refine ⟨fun h => by simp at h, fun _ => ?_⟩
        rw [ProfileWalk.run, hstep]
        rfl
  | cons q suf ih =>
    intro pre p trace results hlen hf hc
    have hout : (profile_fetches trace).length = pre.length + 1 := by simp [hf]
    cases results with
    | nil => exact ⟨fun _ => hbase pre p (q :: suf) trace hf hc, fun h => by simp at h⟩
    | cons res rest =>
      have hl : pre ++ p :: q :: suf = (pre ++ [p]) ++ q :: suf := by simp
      have hi : pre.length + 1 = (pre ++ [p]).length := by simp
      have hnext := get_next_profile_settings_inside context_init (pre ++ [p]) suf q
      rw [← hl, ← hi] at hnext
      have hstep := walk_step_eq context_init pre (q :: suf) p trace pre.length res hlen hout
      rw [hnext] at hstep
      have hf1 : profile_fetches (trace ++ (fetch_report res ++
          [WalkEffect.print (Line.profile q.profile_index q.profile_type q.profile_name),
           WalkEffect.get_profile_settings q.profile_type q.profile_index 3])) =
          ((pre ++ [p]) ++ [q]).map item_fetch := by
        simp only [profile_fetches, List.filterMap_append, fetch_report_no_fetch] at hf ⊢
        rw [hf]
        simp [WalkEffect.fetch, item_fetch]
      have hc1 : walk_completions (trace ++ (fetch_report res ++
          [WalkEffect.print (Line.profile q.profile_index q.profile_type q.profile_name),
           WalkEffect.get_profile_settings q.profile_type q.profile_index 3])) = [] := by
        simp only [walk_completions, List.filterMap_append, fetch_report_no_completion] at hc ⊢
        rw [hc]
        rfl
      have hlen1 : ((pre ++ [p]) ++ q :: suf).length < 2 ^ 32 := by rw [← hl]; exact hlen
      have key := ih (pre ++ [p]) q _ rest hlen1 hf1 hc1
      rw [← hl, ← hi] at key
      have hrun : ProfileWalk.run
          { ctx := some context_init,
            inner_ctx := some { i := pre.length, profile_list := pre ++ p :: q :: suf },
            trace := trace, handled := pre.length } (res :: rest) =
          ProfileWalk.run
            { ctx := some context_init,
              inner_ctx := some { i := pre.length + 1, profile_list := pre ++ p :: q :: suf },
              trace := trace ++ (fetch_report res ++
                [WalkEffect.print (Line.profile q.profile_index q.profile_type q.profile_name),
                 WalkEffect.get_profile_settings q.profile_type q.profile_index 3]),
              handled := pre.length + 1 } rest := by
        rw [ProfileWalk.run, hstep]
      rw [hrun]
      have e1 : pre.length + (res :: rest).length = pre.length + 1 + rest.length := by
        simp only [List.length_cons]; omega
      rw [e1]
      refine ⟨fun h => ?_, fun h => ?_⟩
      · obtain ⟨w, h1, h2, h3, h4, h5⟩ := key.1 (by simpa using h)
        refine ⟨w, h1, h2, h3, fun h6 => h4 (by simpa using h6), fun h6 => h5 (by simpa using h6)⟩
      · exact key.2 (by simpa using h)

/-- The walk that a non-empty profile list starts: the heading, the summary line
of the first profile and its request. -/
theorem walk_start_eq (ctx : Context) (p : Profile) (suf : List Profile) :
    ProfileWalk.start ctx (.ok (some (p :: suf))) =
      { ctx := some ctx,
        inner_ctx := some { i := 0, profile_list := p :: suf },
        trace := [WalkEffect.print Line.profile_list_retrieved,
                  WalkEffect.print (Line.profile p.profile_index p.profile_type p.profile_name),
                  WalkEffect.get_profile_settings p.profile_type p.profile_index 3],
        handled := 0 } := by
  have hnext := get_next_profile_settings_inside ctx [] suf p
  simp only [List.length_nil, List.nil_append] at hnext
  simp only [ProfileWalk.start, get_profile_list_ready, List.length_cons, Nat.succ_ne_zero,
    if_false, hnext]

/-- One profile of the expected walk sends the request of that profile. -/
theorem item_trace_fetch (p : Profile) (r : AsyncResult ProfileSettings) :
    (item_trace p r).filterMap WalkEffect.fetch = [item_fetch p] := by
  simp only [item_trace, List.filterMap_append, fetch_report_no_fetch]
  rfl

/-- One profile of the expected walk writes the summary line of that profile. -/
theorem item_trace_summary (p : Profile) (r : AsyncResult ProfileSettings) :
    (item_trace p r).filterMap WalkEffect.summary_line =
      [(p.profile_index, p.profile_type, p.profile_name)] := by
  simp only [item_trace, List.filterMap_append, fetch_report_no_summary]
  rfl

/-- One profile of the expected walk writes its summary line and then the detail
lines of a successful response. -/
theorem item_trace_lines (p : Profile) (r : AsyncResult ProfileSettings) :
    (item_trace p r).filterMap WalkEffect.printed = item_lines p r := by
  simp only [item_trace, List.filterMap_append, fetch_report_printed]
  rfl

/-- One profile of the expected walk gives no completion signal. -/
theorem item_trace_completion (p : Profile) (r : AsyncResult ProfileSettings) :
    (item_trace p r).filterMap WalkEffect.completion = [] := by
  simp only [item_trace, List.filterMap_append, fetch_report_no_completion]
  rfl

/-- The requests of the expected walk: one per profile, in list order. -/
theorem item_trace_fetches (ps : List Profile) :
    ∀ rs : List (AsyncResult ProfileSettings), rs.length = ps.length →
      ((ps.zip rs).flatMap (fun pr => item_trace pr.1 pr.2)).filterMap WalkEffect.fetch =
        ps.map item_fetch := by
  induction ps with
  | nil => intro rs _; rfl
  | cons p ps ih =>
    intro rs h
    cases rs with
    | nil => simp at h
    | cons r rs =>
      simp only [List.zip_cons_cons, List.flatMap_cons, List.filterMap_append,
        item_trace_fetch, List.map_cons, ih rs (by simpa using h)]
      rfl

/-- The summary lines of the expected walk: one per profile, in list order. -/
theorem item_trace_summaries (ps : List Profile) :
    ∀ rs : List (AsyncResult ProfileSettings), rs.length = ps.length →
      ((ps.zip rs).flatMap (fun pr => item_trace pr.1 pr.2)).filterMap WalkEffect.summary_line =
        ps.map (fun p => (p.profile_index, p.profile_type, p.profile_name)) := by
  induction ps with
  | nil => intro rs _; rfl
  | cons p ps ih =>
    intro rs h
    cases rs with
    | nil => simp at h
    | cons r rs =>
      simp only [List.zip_cons_cons, List.flatMap_cons, List.filterMap_append,
        item_trace_summary, List.map_cons, ih rs (by simpa using h)]
      rfl

/-- The lines of the expected walk: for each profile its summary line, then the
detail lines of its response when that response is a success. -/
theorem item_trace_printed (ps : List Profile) :
    ∀ rs : List (AsyncResult ProfileSettings),
      ((ps.zip rs).flatMap (fun pr => item_trace pr.1 pr.2)).filterMap WalkEffect.printed =
        (ps.zip rs).flatMap (fun pr => item_lines pr.1 pr.2) := by
  induction ps with
  | nil => intro rs; rfl
  | cons p ps ih =>
    intro rs
    cases rs with
    | nil => rfl
    | cons r rs =>
      simp only [List.zip_cons_cons, List.flatMap_cons, List.filterMap_append,
        item_trace_lines, ih rs]

/-- The expected walk of the profiles gives no completion signal before its
end. -/
theorem item_trace_completions (ps : List Profile) :
    ∀ rs : List (AsyncResult ProfileSettings),
      ((ps.zip rs).flatMap (fun pr => item_trace pr.1 pr.2)).filterMap WalkEffect.completion =
        [] := by
  induction ps with
  | nil => intro rs; rfl
  | cons p ps ih =>
    intro rs
    cases rs with
    | nil => rfl
    | cons r rs =>
      simp only [List.zip_cons_cons, List.flatMap_cons, List.filterMap_append,
        item_trace_completion, ih rs]
      rfl

/-- The shutdown sends no request. -/
theorem walk_shutdown_fetches (ctx : Context) (operation_status : Bool) :
    profile_fetches (walk_shutdown ctx operation_status).2.2 = [] := by
  simp only [walk_shutdown, profile_fetches, List.filterMap_map]
  apply List.filterMap_eq_nil_iff.mpr
  intro a _
  rfl

/-- The shutdown writes no line. -/
theorem walk_shutdown_printed (ctx : Context) (operation_status : Bool) :
    printed_lines (walk_shutdown ctx operation_status).2.2 = [] := by
  simp only [walk_shutdown, printed_lines, List.filterMap_map]
  apply List.filterMap_eq_nil_iff.mpr
  intro a _
  rfl

/-- The shutdown gives one completion signal, with its status. -/
theorem walk_shutdown_completions (ctx : Context) (operation_status : Bool) :
    walk_completions (walk_shutdown ctx operation_status).2.2 = [operation_status] := by
  simp only [walk_shutdown, operation_shutdown, context_free, walk_completions]
  by_cases h1 : ctx.network_started_id = 0 <;> by_cases h2 : ctx.packet_status_timeout_id = 0 <;>
    simp [h1, h2, WalkEffect.completion]

/-- Splitting yields at least one piece. -/
theorem split_on_ne_nil (sep : Char) (s : CStr) : split_on sep s ≠ [] := by
  cases s with
  | nil => simp [split_on]
  | cons c cs =>
    rw [split_on]
    split
    · simp
    · split <;> simp

/-- Every entry the legacy branch reads lies in the split vector, the `NULL`
terminator included: its index is at most the number of fields. -/
theorem legacy_reads_le (str : CStr) (hne : str ≠ []) (i : Nat)
    (hi : i ∈ start_network_legacy_reads str start_network_properties_init) :
    i ≤ (g_strsplit str).length := by
  have hpos : 1 ≤ (g_strsplit str).length := by
    simp only [g_strsplit, if_neg hne]
    exact List.length_pos.mpr (split_on_ne_nil ',' str)
  have hsome : ∀ (k : Nat) (a : CStr), (g_strsplit str)[k]? = some a →
      k + 1 ≤ (g_strsplit str).length := by
    intro k a h
    have := (List.getElem?_eq_some_iff.mp h).1
    omega
  simp only [start_network_legacy_reads, start_network_properties_init] at hi
  cases h0 : (g_strsplit str)[0]? with
  | none =>
    simp only [h0, Option.isSome_none] at hi
    simp at hi
    omega
  | some a0 =>
    cases h1 : (g_strsplit str)[1]? with
    | none =>
      simp only [h0, h1, Option.isSome_some] at hi
      simp at hi
      omega
    | some a1 =>
      have h1len := hsome 1 a1 h1
      cases ha : qmicli_read_authentication_from_string a1 with
      | none =>
        simp only [h0, h1, ha, Option.isSome_some] at hi
        simp at hi
        omega
      | some auth =>
        cases h2 : (g_strsplit str)[2]? with
        | none =>
          simp only [h0, h1, ha, h2, Option.isSome_some] at hi
          simp at hi
          omega
        | some a2 =>
          have h2len := hsome 2 a2 h2
          simp only [h0, h1, ha, h2, Option.isSome_some] at hi
          simp at hi
          omega

/-! ## Claims -/

/-- Claim C1, evaluated on the code: a start string with an unknown key and a
bind-mux string without `=` both make the builder return `NULL`, and
`qmicli_wds_run` still issues the request, with a `NULL` bundle, and does not
finish the operation. -/
theorem run_sends_request_after_failed_build (ip_family_value : QmiWdsIpFamily → Nat) :
    start_network_input_create ip_family_value "apn=internet,ip-typ=4".toList = none ∧
    qmicli_wds_run ip_family_value (Options.start "apn=internet,ip-typ=4".toList false) =
      (some context_init, [Effect.start_network none 45]) ∧
    bind_mux_data_port_input_create "mux-id".toList = none ∧
    qmicli_wds_run ip_family_value (Options.bind_mux "mux-id".toList) =
      (some context_init, [Effect.bind_mux_data_port none 10]) := by
  have hp : (qmicli_parse_key_value_string "apn=internet,ip-typ=4".toList
      start_network_properties_handle start_network_properties_init).1 = false := by decide
  have h1 : start_network_input_create ip_family_value "apn=internet,ip-typ=4".toList = none := by
    unfold start_network_input_create
    rw [if_neg (by decide), if_pos (by decide)]
    split
    · rfl
    · next props heq => rw [heq] at hp; cases hp
  have h2 : bind_mux_data_port_input_create "mux-id".toList = none := by decide
  refine ⟨h1, ?_, h2, ?_⟩
  · simp only [qmicli_wds_run, Options.start, h1]
  · simp only [qmicli_wds_run, Options.bind_mux, h2]

/-- Claim C2, evaluated on the code: in follow mode, when a poll response
reports a status other than connected, the stop request is issued while the
poll timer (id 9) and the cancellation handler (id 7) are still registered,
and nothing has released them; on cancellation the timer is removed before the
stop request. -/
theorem disconnection_stop_leaves_timer_and_link_armed :
    Session.run (Options.start [] true) (Session.start (fun _ => 0) (Options.start [] true))
      [.start_network_ready (.ok 42) 7 9,
       .packet_status_timeout,
       .timeout_get_packet_service_status_ready (.ok (.other 1))] =
    some { ctx := some { network_started_id := 7, packet_status_timeout_id := 9,
                         packet_data_handle := 42 },
           trace := [Effect.start_network none 45, Effect.cancellable_connect,
                     Effect.timeout_add_seconds 20, Effect.get_packet_service_status 10,
                     Effect.stop_network
                       { packet_data_handle := 42, disable_autoconnect := none } 10],
           handled := [.start_network_ready (.ok 42) 7 9,
                       .packet_status_timeout,
                       .timeout_get_packet_service_status_ready (.ok (.other 1))] } ∧
    Session.run (Options.start [] true) (Session.start (fun _ => 0) (Options.start [] true))
      [.start_network_ready (.ok 42) 7 9,
       .network_cancelled] =
    some { ctx := some { network_started_id := 0, packet_status_timeout_id := 0,
                         packet_data_handle := 42 },
           trace := [Effect.start_network none 45, Effect.cancellable_connect,
                     Effect.timeout_add_seconds 20, Effect.source_remove 9,
                     Effect.stop_network
                       { packet_data_handle := 42, disable_autoconnect := none } 10],
           handled := [.start_network_ready (.ok 42) 7 9, .network_cancelled] } := by
  decide

/-- Claim C3, evaluated on the code: in follow mode, a poll response that
reports a disconnection followed by the cancellation signal makes
`internal_stop_network` run twice; two stop requests are sent. -/
theorem disconnection_then_cancel_sends_two_stops :
    (Session.run (Options.start [] true) (Session.start (fun _ => 0) (Options.start [] true))
      [.start_network_ready (.ok 42) 7 9,
       .packet_status_timeout,
       .timeout_get_packet_service_status_ready (.ok (.other 1)),
       .network_cancelled]).map (fun s => stop_requests s.trace) =
    some [Effect.stop_network { packet_data_handle := 42, disable_autoconnect := none } 10,
          Effect.stop_network { packet_data_handle := 42, disable_autoconnect := none } 10] := by
  decide

/-- Claim C5: a string with a segment whose key, lower-cased, is none of the
keys of the handler in use does not parse, whatever the record the parse
starts from. -/
theorem unrecognized_key_fails (str key : CStr) (value : Option CStr) (hstr : c_string str)
    (hmem : (key, value) ∈ key_value_pairs str) :
    (key.map g_ascii_tolower ∉ start_network_keys →
      ∀ props, (qmicli_parse_key_value_string str start_network_properties_handle props).1
        = false) ∧
    (key.map g_ascii_tolower ∉ bind_mux_keys →
      ∀ props, (qmicli_parse_key_value_string str bind_mux_data_port_properties_handle props).1
        = false) := by
  have hkey := c_string_key str hstr key value hmem
  constructor
  · intro hunk props
    exact parse_pairs_fails_of_mem _ key value
      (fun p => start_handle_unknown_key key hkey hunk value p) _ hmem props
  · intro hunk props
    exact parse_pairs_fails_of_mem _ key value
      (fun p => bind_handle_unknown_key key hkey hunk value p) _ hmem props

theorem unrecognized_key_fails_witness :
    (qmicli_parse_key_value_string "apn=a,mux-id=1".toList start_network_properties_handle
        start_network_properties_init).1 = false ∧
    (qmicli_parse_key_value_string "mux-id=1,apn=a".toList bind_mux_data_port_properties_handle
        bind_mux_data_port_properties_init).1 = false :=
  ⟨(unrecognized_key_fails "apn=a,mux-id=1".toList "mux-id".toList (some "1".toList)
      (by decide) (by decide)).1 (by decide) start_network_properties_init,
   (unrecognized_key_fails "mux-id=1,apn=a".toList "apn".toList (some "a".toList)
      (by decide) (by decide)).2 (by decide) bind_mux_data_port_properties_init⟩

/-- Claim C6: for every key and every record, both handlers fail on an absent
value and on the empty value, and return the record as it was. -/
theorem handlers_reject_missing_value (key : CStr) (ps : StartNetworkProperties)
    (pb : BindMuxDataPortProperties) :
    start_network_properties_handle key none ps = (false, ps) ∧
    start_network_properties_handle key (some []) ps = (false, ps) ∧
    bind_mux_data_port_properties_handle key none pb = (false, pb) ∧
    bind_mux_data_port_properties_handle key (some []) pb = (false, pb) :=
  ⟨rfl, rfl, rfl, rfl⟩

/-- Claim C7, counterexample: `12abc` is neither a decimal literal, nor a
`0x` literal, nor `disable-autoconnect`, and the stop command accepts it and
sends a stop request for handle 12. -/
theorem stop_accepts_trailing_text :
    stop_literal_value "12abc".toList = none ∧
    "12abc".toList ≠ "disable-autoconnect".toList ∧
    qmicli_wds_run (fun _ => 0) (Options.stop "12abc".toList) =
      (some context_init,
        [Effect.stop_network { packet_data_handle := 12, disable_autoconnect := none } 10]) := by
  decide

/-- Claim C7, amended: the stop command sends a stop request exactly when the
string is `disable-autoconnect` or the number `strtoul` reads from it (base 16
for a string starting with `0x`, base 10 otherwise) is nonzero and fits in 32
bits, and that number is the handle sent; in every other case it sends nothing
and finishes with failure.  A string accepted as a number starts with `0x` and
a hexadecimal digit, or, after white space and an optional sign, with a decimal
digit; what follows the digits is not examined. -/
theorem stop_accepts_exactly_leading_number (ip_family_value : QmiWdsIpFamily → Nat)
    (s : CStr) :
    qmicli_wds_run ip_family_value (Options.stop s) =
      (if s = "disable-autoconnect".toList then
        (some context_init,
          [Effect.stop_network
            { packet_data_handle := 0xFFFFFFFF, disable_autoconnect := some true } 10])
      else if 1 ≤ stop_network_handle s ∧ stop_network_handle s ≤ 0xFFFFFFFF then
        (some context_init,
          [Effect.stop_network
            { packet_data_handle := stop_network_handle s, disable_autoconnect := none } 10])
      else (none, [Effect.async_operation_done false])) ∧
    (1 ≤ stop_network_handle s →
      (∃ d rest, s = '0' :: 'x' :: d :: rest ∧ is_hex_digit d = true) ∨
      (∃ ws sg d rest, s = ws ++ sg ++ d :: rest ∧ (∀ c ∈ ws, isspace c = true) ∧
        (sg = [] ∨ sg = ['+'] ∨ sg = ['-']) ∧ is_decimal_digit d = true)) := by
  refine ⟨?_, fun h => stop_network_handle_ne_zero s (by omega)⟩
  have hrun : qmicli_wds_run ip_family_value (Options.stop s) = run_stop_network context_init s :=
    rfl
  rw [hrun]
  unfold run_stop_network
  by_cases hd : s = "disable-autoconnect".toList
  · rw [if_pos hd, if_pos hd]
    rfl
  · rw [if_neg hd, if_neg hd]
    by_cases hr : stop_network_handle s = 0 ∨ stop_network_handle s > G_MAXUINT32
    · have hn : ¬ (1 ≤ stop_network_handle s ∧ stop_network_handle s ≤ 0xFFFFFFFF) := by
        unfold G_MAXUINT32 at hr
        omega
      rw [if_pos hr, if_neg hn]
      rfl
    · have hy : 1 ≤ stop_network_handle s ∧ stop_network_handle s ≤ 0xFFFFFFFF := by
        unfold G_MAXUINT32 at hr
        omega
      rw [if_neg hr, if_pos hy]
      simp only [internal_stop_network]
      rw [Nat.mod_eq_of_lt (by omega)]
      rfl

theorem stop_accepts_exactly_leading_number_witness :
    (∃ d rest, " +12abc".toList = '0' :: 'x' :: d :: rest ∧ is_hex_digit d = true) ∨
    (∃ ws sg d rest, " +12abc".toList = ws ++ sg ++ d :: rest ∧
      (∀ c ∈ ws, isspace c = true) ∧
      (sg = [] ∨ sg = ['+'] ∨ sg = ['-']) ∧ is_decimal_digit d = true) :=
  (stop_accepts_exactly_leading_number (fun _ => 0) " +12abc".toList).2 (by decide)

/-- Claim C8: for a decimal literal, or `0x` followed by hexadecimal digits,
with value `v` between 1 and `0xFFFFFFFF`, the stop command sends exactly one
stop request, for handle `v`, without the disable-autoconnect field. -/
theorem stop_literal_sends_handle (ip_family_value : QmiWdsIpFamily → Nat) (s : CStr) (v : Nat)
    (hlit : stop_literal_value s = some v) (hlo : 1 ≤ v) (hhi : v ≤ 0xFFFFFFFF) :
    qmicli_wds_run ip_family_value (Options.stop s) =
      (some context_init,
        [Effect.stop_network { packet_data_handle := v, disable_autoconnect := none } 10]) := by
  obtain ⟨hne, hval⟩ := stop_network_handle_of_literal s v hlit
  have hu : ¬ v > ULONG_MAX := by unfold ULONG_MAX; omega
  rw [if_neg hu] at hval
  simp only [qmicli_wds_run, Options.stop, run_stop_network, if_neg hne, hval, G_MAXUINT32]
  rw [if_neg (by omega)]
  simp only [internal_stop_network]
  rw [Nat.mod_eq_of_lt (by omega)]
  rfl

theorem stop_literal_sends_handle_witness :
    stop_literal_value "0x10".toList = some 16 ∧
    qmicli_wds_run (fun _ => 0) (Options.stop "0x10".toList) =
      (some context_init,
        [Effect.stop_network { packet_data_handle := 16, disable_autoconnect := none } 10]) :=
  ⟨by decide, stop_literal_sends_handle (fun _ => 0) "0x10".toList 16 (by decide) (by decide)
    (by decide)⟩

/-- Claim C9: for a decimal literal, or `0x` followed by hexadecimal digits,
whose value is 0 or above `0xFFFFFFFF`, the stop command sends no request and
finishes with failure. -/
theorem stop_literal_zero_or_large_rejected (ip_family_value : QmiWdsIpFamily → Nat) (s : CStr)
    (v : Nat) (hlit : stop_literal_value s = some v) (hv : v = 0 ∨ v > 0xFFFFFFFF) :
    qmicli_wds_run ip_family_value (Options.stop s) =
      (none, [Effect.async_operation_done false]) := by
  obtain ⟨hne, hval⟩ := stop_network_handle_of_literal s v hlit
  have hrej : stop_network_handle s = 0 ∨ stop_network_handle s > G_MAXUINT32 := by
    rw [hval]
    unfold G_MAXUINT32 ULONG_MAX
    split_ifs <;> omega
  simp only [qmicli_wds_run, Options.stop, run_stop_network, if_neg hne, if_pos hrej]
  rfl

theorem stop_literal_zero_or_large_rejected_witness :
    (qmicli_wds_run (fun _ => 0) (Options.stop "0".toList) =
      (none, [Effect.async_operation_done false])) ∧
    (qmicli_wds_run (fun _ => 0) (Options.stop "0x0".toList) =
      (none, [Effect.async_operation_done false])) ∧
    (qmicli_wds_run (fun _ => 0) (Options.stop "4294967296".toList) =
      (none, [Effect.async_operation_done false])) ∧
    (qmicli_wds_run (fun _ => 0) (Options.stop "99999999999999999999".toList) =
      (none, [Effect.async_operation_done false])) :=
  ⟨stop_literal_zero_or_large_rejected (fun _ => 0) "0".toList 0 (by decide) (by decide),
   stop_literal_zero_or_large_rejected (fun _ => 0) "0x0".toList 0 (by decide) (by decide),
   stop_literal_zero_or_large_rejected (fun _ => 0) "4294967296".toList 4294967296
     (by decide) (by decide),
   stop_literal_zero_or_large_rejected (fun _ => 0) "99999999999999999999".toList
     99999999999999999999 (by decide) (by decide)⟩

/-- Claim C10: `disable-autoconnect` gives a stop request for handle
`0xFFFFFFFF` with the disable-autoconnect field set; a stop request with
that field comes from no other string; `4294967295` gives handle
`0xFFFFFFFF` without the field. -/
theorem disable_autoconnect_flag_only_for_literal (ip_family_value : QmiWdsIpFamily → Nat) :
    qmicli_wds_run ip_family_value (Options.stop "disable-autoconnect".toList) =
      (some context_init,
        [Effect.stop_network
          { packet_data_handle := 0xFFFFFFFF, disable_autoconnect := some true } 10]) ∧
    (∀ (s : CStr) (input : QmiMessageWdsStopNetworkInput) (timeout : Nat),
      Effect.stop_network input timeout ∈ (qmicli_wds_run ip_family_value (Options.stop s)).2 →
      input.disable_autoconnect ≠ none → s = "disable-autoconnect".toList) ∧
    qmicli_wds_run ip_family_value (Options.stop "4294967295".toList) =
      (some context_init,
        [Effect.stop_network
          { packet_data_handle := 0xFFFFFFFF, disable_autoconnect := none } 10]) := by
  have h1 : run_stop_network context_init "disable-autoconnect".toList =
      (some context_init,
        [Effect.stop_network
          { packet_data_handle := 0xFFFFFFFF, disable_autoconnect := some true } 10]) := by
    decide
  have h2 : run_stop_network context_init "4294967295".toList =
      (some context_init,
        [Effect.stop_network
          { packet_data_handle := 0xFFFFFFFF, disable_autoconnect := none } 10]) := by
    decide
  refine ⟨h1, ?_, h2⟩
  intro s input timeout hmem hflag
  have hrun : qmicli_wds_run ip_family_value (Options.stop s) = run_stop_network context_init s :=
    rfl
  rw [hrun] at hmem
  unfold run_stop_network at hmem
  by_contra hd
  rw [if_neg hd] at hmem
  split_ifs at hmem with hr
  · simp [operation_shutdown, context_free, context_init] at hmem
  · simp only [internal_stop_network, List.mem_singleton, Effect.stop_network.injEq] at hmem
    obtain ⟨hin, _⟩ := hmem
    rw [hin] at hflag
    exact hflag rfl

theorem disable_autoconnect_flag_only_for_literal_witness :
    Effect.stop_network { packet_data_handle := 0xFFFFFFFF, disable_autoconnect := some true } 10
      ∈ (qmicli_wds_run (fun _ => 0) (Options.stop "disable-autoconnect".toList)).2 ∧
    "disable-autoconnect".toList = "disable-autoconnect".toList :=
  ⟨by decide,
   (disable_autoconnect_flag_only_for_literal (fun _ => 0)).2.1 "disable-autoconnect".toList
    { packet_data_handle := 0xFFFFFFFF, disable_autoconnect := some true } 10
    (by decide) (by decide)⟩

/-- Claim C11, counterexample: the values `4abc` and ` +6` are not the literals
`4` and `6`, and the handler accepts them as IPv4 and IPv6. -/
theorem ip_type_accepts_more_than_literals :
    "4abc".toList ≠ "4".toList ∧
    start_network_properties_handle "ip-type".toList (some "4abc".toList)
        start_network_properties_init =
      (true, { start_network_properties_init with ip_type := .IPV4 }) ∧
    " +6".toList ≠ "6".toList ∧
    start_network_properties_handle "ip-type".toList (some " +6".toList)
        start_network_properties_init =
      (true, { start_network_properties_init with ip_type := .IPV6 }) := by
  decide

/-- Claim C11, amended: with no IP type set yet, the handler accepts an
`ip-type` value exactly when `atoi` reads 4 from it (IPv4) or 6 (IPv6), and
fails for every other value; an accepted value starts, after white space and
an optional sign, with a decimal digit, and what follows the digits is not
examined. -/
theorem ip_type_accepted_by_atoi (c : Char) (cs : CStr) (props : StartNetworkProperties)
    (hunset : props.ip_type = .UNSPECIFIED) :
    start_network_properties_handle "ip-type".toList (some (c :: cs)) props =
      (if atoi (c :: cs) = 4 then (true, { props with ip_type := .IPV4 })
       else if atoi (c :: cs) = 6 then (true, { props with ip_type := .IPV6 })
       else (false, props)) ∧
    (atoi (c :: cs) = 4 ∨ atoi (c :: cs) = 6 →
      ∃ ws sg d rest, c :: cs = ws ++ sg ++ d :: rest ∧ (∀ x ∈ ws, isspace x = true) ∧
        (sg = [] ∨ sg = ['+'] ∨ sg = ['-']) ∧ is_decimal_digit d = true) := by
  refine ⟨start_handle_ip_type c cs props hunset, ?_⟩
  intro h
  apply atoi_ne_zero_decompose
  rcases h with h | h <;> rw [h] <;> decide

theorem ip_type_accepted_by_atoi_witness :
    start_network_properties_handle "ip-type".toList (some "4".toList)
        start_network_properties_init =
      (true, { start_network_properties_init with ip_type := .IPV4 }) :=
  (ip_type_accepted_by_atoi '4' [] start_network_properties_init rfl).1

/-- Claim C13: for a non-empty APN value `v` without a comma, and IPv4 numbered
nonzero, the string `apn=v,ip-type=4` builds a request whose only fields are
the APN `v` and the IP family IPv4. -/
theorem apn_and_ip_type_request (ip_family_value : QmiWdsIpFamily → Nat)
    (hv4 : ip_family_value .IPV4 ≠ 0) (v : CStr) (hne : v ≠ []) (hcomma : ',' ∉ v) :
    start_network_input_create ip_family_value ("apn=".toList ++ v ++ ",ip-type=4".toList) =
      some { apn := some v, profile_index_3gpp := none, profile_index_3gpp2 := none,
             ip_family_preference := some .IPV4, authentication_preference := none,
             username := none, password := none, enable_autoconnect := none } := by
  obtain ⟨c, cs, rfl⟩ : ∃ c cs, v = c :: cs := by
    cases v with
    | nil => exact absurd rfl hne
    | cons c cs => exact ⟨c, cs, rfl⟩
  have hpairs : key_value_pairs ("apn=".toList ++ (c :: cs) ++ ",ip-type=4".toList) =
      [("apn".toList, some (c :: cs)), ("ip-type".toList, some "4".toList)] := by
    have hc2 : ',' ∉ "apn=".toList ++ (c :: cs) := by
      intro h
      rcases List.mem_append.1 h with h | h
      · exact absurd h (by decide)
      · exact hcomma h
    have e1 : ",ip-type=4".toList = ',' :: "ip-type=4".toList := rfl
    have e2 : "apn=".toList ++ (c :: cs) = "apn".toList ++ '=' :: (c :: cs) := rfl
    unfold key_value_pairs
    rw [e1, split_on_append ',' _ _ hc2, split_on_of_not_mem ',' "ip-type=4".toList (by decide)]
    simp only [List.map_cons, List.map_nil]
    rw [e2, split_key_value_append _ _ (by decide)]
    rfl
  have hstr : "apn=".toList ++ (c :: cs) ++ ",ip-type=4".toList ≠ [] := by
    intro h
    have := congrArg List.length h
    simp at this
  have heq : strchr ("apn=".toList ++ (c :: cs) ++ ",ip-type=4".toList) '=' = true := by
    unfold strchr
    rw [List.contains_iff_exists_mem_beq]
    exact ⟨'=', by simp, by simp⟩
  unfold start_network_input_create
  rw [if_neg hstr, if_pos heq]
  unfold qmicli_parse_key_value_string
  rw [hpairs]
  simp only [parse_key_value_pairs]
  rw [start_handle_apn c cs _ rfl]
  have e4 : "4".toList = ['4'] := rfl
  simp only [e4]
  rw [start_handle_ip_type '4' [] _ rfl]
  have h4 : atoi ['4'] = 4 := by decide
  simp only [h4, if_true]
  simp [start_network_input_of_properties, start_network_properties_init, hv4]

theorem apn_and_ip_type_request_witness :
    start_network_input_create ip_family_number "apn=foo,ip-type=4".toList =
      some { apn := some "foo".toList, profile_index_3gpp := none, profile_index_3gpp2 := none,
             ip_family_preference := some .IPV4, authentication_preference := none,
             username := none, password := none, enable_autoconnect := none } :=
  apn_and_ip_type_request ip_family_number (by decide) "foo".toList (by decide) (by decide)

/-- Claim C14: for the empty string the builder returns the `NULL` bundle,
which stands for "no parameters", and `qmicli_wds_run` sends the start request
with it: a request with no optional field. -/
theorem empty_start_string_sends_bare_request (ip_family_value : QmiWdsIpFamily → Nat)
    (follow_network_flag : Bool) :
    start_network_input_create ip_family_value [] = none ∧
    qmicli_wds_run ip_family_value (Options.start [] follow_network_flag) =
      (some context_init, [Effect.start_network none 45]) :=
  ⟨rfl, rfl⟩

/-- Claim C16: for two keys that differ in the case of ASCII letters only,
both handlers return the same result and the same record, for every value and
every record. -/
theorem handlers_ignore_key_case (k k1 : CStr) (hsame : same_key k k1)
    (value : Option CStr) (ps : StartNetworkProperties) (pb : BindMuxDataPortProperties) :
    start_network_properties_handle k value ps = start_network_properties_handle k1 value ps ∧
    bind_mux_data_port_properties_handle k value pb =
      bind_mux_data_port_properties_handle k1 value pb := by
  have e (K : CStr) : (g_ascii_strcasecmp k K = 0) = (g_ascii_strcasecmp k1 K = 0) :=
    propext (g_ascii_strcasecmp_congr k k1 K hsame)
  constructor
  · unfold start_network_properties_handle
    simp only [e]
  · unfold bind_mux_data_port_properties_handle
    simp only [e]

theorem handlers_ignore_key_case_witness :
    start_network_properties_handle "APN".toList (some "internet".toList)
        start_network_properties_init =
      start_network_properties_handle "apn".toList (some "internet".toList)
        start_network_properties_init ∧
    bind_mux_data_port_properties_handle "Mux-Id".toList (some "3".toList)
        bind_mux_data_port_properties_init =
      bind_mux_data_port_properties_handle "mux-id".toList (some "3".toList)
        bind_mux_data_port_properties_init :=
  ⟨(handlers_ignore_key_case "APN".toList "apn".toList (by decide) (some "internet".toList)
      start_network_properties_init bind_mux_data_port_properties_init).1,
   (handlers_ignore_key_case "Mux-Id".toList "mux-id".toList (by decide) (some "3".toList)
      start_network_properties_init bind_mux_data_port_properties_init).2⟩

/-- Claim C17: the bind-mux builder returns `NULL` for every string that does
not supply both `mux-id` and `ep-iface-number`, and for every string without
`=`; `mux-id=5,ep-iface-number=2` builds a request and `mux-id=5` does not. -/
theorem bind_mux_needs_both_keys (str : CStr) (hstr : c_string str) :
    ((¬ ∃ w, supplies str "mux-id".toList w) ∨
        (¬ ∃ w, supplies str "ep-iface-number".toList w) →
      bind_mux_data_port_input_create str = none) ∧
    (strchr str '=' = false → bind_mux_data_port_input_create str = none) ∧
    (bind_mux_data_port_input_create "mux-id=5,ep-iface-number=2".toList).isSome = true ∧
    bind_mux_data_port_input_create "mux-id=5".toList = none := by
  refine ⟨?_, ?_, by decide, by decide⟩
  · intro hmiss
    cases hb : bind_mux_data_port_input_create str with
    | none => rfl
    | some input =>
      obtain ⟨_, _, ⟨w1, s1, _⟩, ⟨w2, s2, _⟩⟩ := bind_input_fields str input hstr hb
      rcases hmiss with hm | hm
      · exact absurd ⟨w1, s1⟩ hm
      · exact absurd ⟨w2, s2⟩ hm
  · intro hno
    unfold bind_mux_data_port_input_create
    split_ifs <;> simp_all

theorem bind_mux_needs_both_keys_witness :
    bind_mux_data_port_input_create "ep-iface-number=2".toList = none ∧
    bind_mux_data_port_input_create "mux-id,ep-iface-number".toList = none :=
  ⟨(bind_mux_needs_both_keys "ep-iface-number=2".toList (by decide)).1
      (Or.inl (by
        rintro ⟨w, k, hk, hmem⟩
        have hp : key_value_pairs "ep-iface-number=2".toList =
            [("ep-iface-number".toList, some "2".toList)] := by decide
        rw [hp, List.mem_singleton] at hmem
        injection hmem with h1 _
        rw [h1] at hk
        exact absurd hk (by decide))),
   (bind_mux_needs_both_keys "mux-id,ep-iface-number".toList (by decide)).2.1 (by decide)⟩

/-- Claim C18: a request that the bind-mux builder returns has endpoint type
HSUSB and client type tethered, and its mux id and endpoint interface number
are each converted (`atoi`) from a value that the string supplies for the key. -/
theorem bind_mux_request_fields (str : CStr) (input : QmiMessageWdsBindMuxDataPortInput)
    (hstr : c_string str) (h : bind_mux_data_port_input_create str = some input) :
    input.endpoint_type = .HSUSB ∧ input.client_type = .TETHERED ∧
    (∃ w, supplies str "mux-id".toList w ∧ input.mux_id = to_guint32 (atoi w)) ∧
    (∃ w, supplies str "ep-iface-number".toList w ∧
      input.endpoint_interface_number = to_guint32 (atoi w)) :=
  bind_input_fields str input hstr h

theorem bind_mux_request_fields_witness :
    bind_mux_data_port_input_create "mux-id=5,ep-iface-number=2".toList =
      some { endpoint_type := .HSUSB, endpoint_interface_number := 2, mux_id := 5,
             client_type := .TETHERED } ∧
    (∃ w, supplies "mux-id=5,ep-iface-number=2".toList "mux-id".toList w ∧
      5 = to_guint32 (atoi w)) :=
  ⟨by decide,
   (bind_mux_request_fields "mux-id=5,ep-iface-number=2".toList
      { endpoint_type := .HSUSB, endpoint_interface_number := 2, mux_id := 5,
        client_type := .TETHERED } (by decide) (by decide)).2.2.1⟩

/-- Claim C20: after `qmicli_wds_run` has sent the start request, a failed
response (no output, or an error result) finishes the operation with failure
and connects no handler and adds no timer, in either follow mode; a successful
response without follow mode stores the handle of the response in the context
(the handle its "Network started" report prints from the context is that of
the response, whatever the context held before) and finishes the operation
with success at once; the failure paths write no such report. -/
theorem start_response_outcomes (ip_family_value : QmiWdsIpFamily → Nat) (str : CStr)
    (handler_id source_id handle : Nat) :
    (∀ follow_network_flag,
      Session.run (Options.start str follow_network_flag)
          (Session.start ip_family_value (Options.start str follow_network_flag))
          [.start_network_ready .failed handler_id source_id] =
        some { ctx := none,
               trace := [Effect.start_network (start_network_input_create ip_family_value str) 45,
                         Effect.async_operation_done false],
               handled := [.start_network_ready .failed handler_id source_id] }) ∧
    (∀ follow_network_flag,
      Session.run (Options.start str follow_network_flag)
          (Session.start ip_family_value (Options.start str follow_network_flag))
          [.start_network_ready .error handler_id source_id] =
        some { ctx := none,
               trace := [Effect.start_network (start_network_input_create ip_family_value str) 45,
                         Effect.async_operation_done false],
               handled := [.start_network_ready .error handler_id source_id] }) ∧
    Session.run (Options.start str false)
        (Session.start ip_family_value (Options.start str false))
        [.start_network_ready (.ok handle) handler_id source_id] =
      some { ctx := none,
             trace := [Effect.start_network (start_network_input_create ip_family_value str) 45,
                       Effect.async_operation_done true],
             handled := [.start_network_ready (.ok handle) handler_id source_id] } ∧
    start_network_ready false handler_id source_id context_init (.ok handle) =
      operation_shutdown { context_init with packet_data_handle := handle } true ∧
    start_network_ready_report false handler_id source_id context_init (.ok handle) =
      ((none, [Effect.async_operation_done true]), some handle) ∧
    (∀ follow_network_flag ctx,
      (start_network_ready_report follow_network_flag handler_id source_id ctx
        (.ok handle)).2 = some handle) ∧
    (∀ follow_network_flag ctx,
      (start_network_ready_report follow_network_flag handler_id source_id ctx .failed).2 =
        none ∧
      (start_network_ready_report follow_network_flag handler_id source_id ctx .error).2 =
        none) := by
  refine ⟨fun f => ?_, fun f => ?_, ?_, rfl, rfl, fun f ctx => ?_, fun f ctx => ⟨rfl, rfl⟩⟩
  · rfl
  · rfl
  · rfl
  · cases f <;> rfl

/-- Claim C21.  On a start response received in the initial context,
`start_network_ready` connects the cancellation handler and adds the poll timer
(interval 20 seconds) exactly when the response is a success and follow mode is
on; it then stores both ids and the handle in the context and gives no
completion signal.  In every other case it connects no handler and adds no
timer: the context is released with both ids still 0 (nothing is disconnected
or removed) and the only effect is the completion signal. -/
theorem follow_arms_timer_and_link (ip_family_value : QmiWdsIpFamily → Nat) (str : CStr)
    (handler_id source_id : Nat) :
    (∀ handle, start_network_ready true handler_id source_id context_init (.ok handle) =
      (some { network_started_id := handler_id, packet_status_timeout_id := source_id,
              packet_data_handle := handle },
        [Effect.cancellable_connect, Effect.timeout_add_seconds 20])) ∧
    (∀ handle,
      Session.run (Options.start str true)
          (Session.start ip_family_value (Options.start str true))
          [.start_network_ready (.ok handle) handler_id source_id] =
        some { ctx := some { network_started_id := handler_id,
                             packet_status_timeout_id := source_id,
                             packet_data_handle := handle },
               trace := [Effect.start_network (start_network_input_create ip_family_value str) 45,
                         Effect.cancellable_connect, Effect.timeout_add_seconds 20],
               handled := [.start_network_ready (.ok handle) handler_id source_id] }) ∧
    (∀ follow_network_flag res,
      (follow_network_flag = false ∨ res = .failed ∨ res = .error) →
      ∃ operation_status,
        start_network_ready follow_network_flag handler_id source_id context_init res =
          (none, [Effect.async_operation_done operation_status])) ∧
    (∀ follow_network_flag res,
      (Effect.cancellable_connect ∈
          (start_network_ready follow_network_flag handler_id source_id context_init res).2 ∨
        ∃ interval, Effect.timeout_add_seconds interval ∈
          (start_network_ready follow_network_flag handler_id source_id context_init res).2) →
      follow_network_flag = true ∧ ∃ handle, res = .ok handle) := by
  refine ⟨fun _ => rfl, fun _ => rfl, ?_, ?_⟩
  · intro follow res h
    cases res with
    | failed => exact ⟨false, rfl⟩
    | error => exact ⟨false, rfl⟩
    | ok handle =>
      rcases h with h | h | h
      · subst h; exact ⟨true, rfl⟩
      · cases h
      · cases h
  · intro follow res h
    cases res with
    | failed =>
      rcases h with h | ⟨n, h⟩ <;> simp [start_network_ready, start_network_ready_report, operation_shutdown, context_free,
        context_init] at h
    | error =>
      rcases h with h | ⟨n, h⟩ <;> simp [start_network_ready, start_network_ready_report, operation_shutdown, context_free,
        context_init] at h
    | ok handle =>
      cases follow with
      | true => exact ⟨rfl, handle, rfl⟩
      | false =>
        rcases h with h | ⟨n, h⟩ <;> simp [start_network_ready, start_network_ready_report, operation_shutdown, context_free,
          context_init] at h

/-- Claim C22.  On a successful poll response, `timeout_get_packet_service_status_ready`
sends one stop request with the handle held in the context and no
autoconnect-disable flag when the status is not `CONNECTED`, and sends nothing
when it is; the context is the same afterwards in both cases.  In a followed
session (timer id not 0) the handle of that stop request is the one the start
response carried. -/
theorem poll_status_decides_stop (ip_family_value : QmiWdsIpFamily → Nat) (str : CStr)
    (ctx : Context) (handler_id source_id handle : Nat) (hsource : source_id ≠ 0) :
    (∀ status, status ≠ QmiWdsConnectionStatus.CONNECTED →
      timeout_get_packet_service_status_ready ctx (.ok status) =
        (some ctx,
          [Effect.stop_network
            { packet_data_handle := ctx.packet_data_handle, disable_autoconnect := none } 10])) ∧
    timeout_get_packet_service_status_ready ctx (.ok .CONNECTED) = (some ctx, []) ∧
    (∀ status, status ≠ QmiWdsConnectionStatus.CONNECTED →
      (Session.run (Options.start str true)
          (Session.start ip_family_value (Options.start str true))
          [.start_network_ready (.ok handle) handler_id source_id,
           .packet_status_timeout,
           .timeout_get_packet_service_status_ready (.ok status)]).map
          (fun s => (s.ctx, s.trace)) =
        some (some { network_started_id := handler_id, packet_status_timeout_id := source_id,
                     packet_data_handle := handle },
              [Effect.start_network (start_network_input_create ip_family_value str) 45,
               Effect.cancellable_connect, Effect.timeout_add_seconds 20,
               Effect.get_packet_service_status 10,
               Effect.stop_network
                 { packet_data_handle := handle, disable_autoconnect := none } 10])) ∧
    (Session.run (Options.start str true)
        (Session.start ip_family_value (Options.start str true))
        [.start_network_ready (.ok handle) handler_id source_id,
         .packet_status_timeout,
         .timeout_get_packet_service_status_ready (.ok .CONNECTED)]).map
        (fun s => (s.ctx, s.trace)) =
      some (some { network_started_id := handler_id, packet_status_timeout_id := source_id,
                   packet_data_handle := handle },
            [Effect.start_network (start_network_input_create ip_family_value str) 45,
             Effect.cancellable_connect, Effect.timeout_add_seconds 20,
             Effect.get_packet_service_status 10]) := by
  refine ⟨?_, rfl, ?_, ?_⟩
  · intro status hs
    simp [timeout_get_packet_service_status_ready, hs, internal_stop_network]
  · intro status hs
    simp [Session.run, Session.step, Session.start, qmicli_wds_run, Options.start,
      Event.enabled, Event.dispatch, Effect.is_start_network, Event.is_start_network_ready,
      Event.is_status_ready, Effect.is_get_packet_service_status,
      start_network_ready, start_network_ready_report, packet_status_timeout,
      timeout_get_packet_service_status_ready,
      internal_stop_network, hsource, hs, context_init]
  · simp [Session.run, Session.step, Session.start, qmicli_wds_run, Options.start,
      Event.enabled, Event.dispatch, Effect.is_start_network, Event.is_start_network_ready,
      Event.is_status_ready, Effect.is_get_packet_service_status,
      start_network_ready, start_network_ready_report, packet_status_timeout,
      timeout_get_packet_service_status_ready,
      internal_stop_network, hsource, context_init]

/-- Claim C22 in a followed session with handle 5: a poll response with a
status other than `CONNECTED` sends the stop request for handle 5. -/
theorem poll_status_decides_stop_witness :
    (Session.run (Options.start [] true)
        (Session.start ip_family_number (Options.start [] true))
        [.start_network_ready (.ok 5) 7 9,
         .packet_status_timeout,
         .timeout_get_packet_service_status_ready (.ok (.other 1))]).map
        (fun s => (s.ctx, s.trace)) =
      some (some { network_started_id := 7, packet_status_timeout_id := 9,
                   packet_data_handle := 5 },
            [Effect.start_network (start_network_input_create ip_family_number []) 45,
             Effect.cancellable_connect, Effect.timeout_add_seconds 20,
             Effect.get_packet_service_status 10,
             Effect.stop_network { packet_data_handle := 5, disable_autoconnect := none } 10]) :=
  (poll_status_decides_stop ip_family_number [] context_init 7 9 5 (by decide)).2.2.1
    (.other 1) (by decide)

/-- Claim C23.  In any context, `stop_network_ready` releases the context and
gives the completion signal, and that signal is success exactly when the stop
response is a success: a response without output and an error result both
give failure. -/
theorem stop_response_decides_result (ctx : Context) :
    stop_network_ready ctx (.ok ()) =
      (none, context_free ctx ++ [Effect.async_operation_done true]) ∧
    stop_network_ready ctx .failed =
      (none, context_free ctx ++ [Effect.async_operation_done false]) ∧
    stop_network_ready ctx .error =
      (none, context_free ctx ++ [Effect.async_operation_done false]) ∧
    (∀ res operation_status,
      Effect.async_operation_done operation_status ∈ (stop_network_ready ctx res).2 ↔
        operation_status = (match res with
          | .ok _ => true
          | _ => false)) := by
  refine ⟨rfl, rfl, rfl, ?_⟩
  intro res status
  cases res <;>
    simp [stop_network_ready, operation_shutdown, context_free]

/-- Claim C24.  For a non-empty profile list and one response per profile, each
a success or a failure, the walk runs to its end: it writes the heading, then
for each profile in list order the summary line, one `Get Profile Settings`
request with the type and index of that profile and timeout 3, and the report
of the response (the detail lines of a success, an error report of a failure);
it then signals success, once, as its last effect, with the context and the
walk record released.  The list length fits the `guint` field `len`. -/
theorem profile_walk_visits_every_profile (profile_list : List Profile)
    (results : List (AsyncResult ProfileSettings))
    (hne : profile_list ≠ []) (hlen : profile_list.length < 2 ^ 32)
    (hres : results.length = profile_list.length) :
    ∃ w, ProfileWalk.run (ProfileWalk.start context_init (.ok (some profile_list))) results =
        some w ∧
      w.ctx = none ∧ w.inner_ctx = none ∧ w.handled = profile_list.length ∧
      w.trace = walk_trace profile_list results ∧
      summary_lines w.trace =
        profile_list.map (fun p => (p.profile_index, p.profile_type, p.profile_name)) ∧
      profile_fetches w.trace = profile_list.map item_fetch ∧
      printed_lines w.trace =
        Line.profile_list_retrieved ::
          (profile_list.zip results).flatMap (fun pr => item_lines pr.1 pr.2) ∧
      walk_completions w.trace = [true] ∧
      w.trace.getLast? = some (WalkEffect.session (Effect.async_operation_done true)) := by
  cases profile_list with
  | nil => exact absurd rfl hne
  | cons p suf =>
    cases results with
    | nil => simp at hres
    | cons res rest =>
      have hrest : rest.length = suf.length := by simpa using hres
      have hrun := walk_run_rest context_init suf [] p
        [WalkEffect.print Line.profile_list_retrieved,
         WalkEffect.print (Line.profile p.profile_index p.profile_type p.profile_name),
         WalkEffect.get_profile_settings p.profile_type p.profile_index 3] 0 res rest
        (by simpa using hlen) rfl hrest
      simp only [List.length_nil, List.nil_append] at hrun
      rw [walk_start_eq, hrun]
      have htrace : [WalkEffect.print Line.profile_list_retrieved,
          WalkEffect.print (Line.profile p.profile_index p.profile_type p.profile_name),
          WalkEffect.get_profile_settings p.profile_type p.profile_index 3] ++
          (fetch_report res ++
            ((suf.zip rest).flatMap (fun pr => item_trace pr.1 pr.2) ++
              (context_free context_init ++ [Effect.async_operation_done true]).map
                WalkEffect.session)) = walk_trace (p :: suf) (res :: rest) := by
        simp [walk_trace, item_trace, context_free, context_init]
      refine ⟨_, rfl, rfl, rfl, by simp, htrace, ?_, ?_, ?_, ?_, ?_⟩
      · simp only [htrace, summary_lines, walk_trace, List.filterMap_cons, List.filterMap_append,
          item_trace_summaries (p :: suf) (res :: rest) hres]
        simp [WalkEffect.summary_line]
      · simp only [htrace, profile_fetches, walk_trace, List.filterMap_cons,
          List.filterMap_append, item_trace_fetches (p :: suf) (res :: rest) hres]
        simp [WalkEffect.fetch]
      · simp only [htrace, printed_lines, walk_trace, List.filterMap_cons, List.filterMap_append,
          item_trace_printed (p :: suf) (res :: rest)]
        simp [WalkEffect.printed]
      · simp only [htrace, walk_completions, walk_trace, List.filterMap_cons,
          List.filterMap_append, item_trace_completions (p :: suf) (res :: rest)]
        simp [WalkEffect.completion]
      · have hlast : walk_trace (p :: suf) (res :: rest) =
            (WalkEffect.print Line.profile_list_retrieved ::
              ((p :: suf).zip (res :: rest)).flatMap (fun pr => item_trace pr.1 pr.2)) ++
            [WalkEffect.session (Effect.async_operation_done true)] := rfl
        rw [htrace, hlast, List.getLast?_concat]

/-- The walk of claim C24 over three profiles whose second request fails. -/
theorem profile_walk_visits_every_profile_witness :
    ∃ w, ProfileWalk.run
        (ProfileWalk.start context_init
          (.ok (some [{ profile_type := 0, profile_index := 1, profile_name := "a".toList },
                      { profile_type := 0, profile_index := 2, profile_name := "b".toList },
                      { profile_type := 1, profile_index := 1, profile_name := "c".toList }])))
        [.ok { apn_name := some "internet".toList, pdp_type := some 0, username := none,
               password := none, authentication := some 1 },
         .failed,
         .ok { apn_name := none, pdp_type := some 3, username := some "u".toList,
               password := none, authentication := none }] = some w ∧
      w.trace =
        [WalkEffect.print Line.profile_list_retrieved,
         WalkEffect.print (Line.profile 1 0 "a".toList),
         WalkEffect.get_profile_settings 0 1 3,
         WalkEffect.print (Line.apn "internet".toList),
         WalkEffect.print (Line.pdp_type 0),
         WalkEffect.print (Line.auth 1),
         WalkEffect.print (Line.profile 2 0 "b".toList),
         WalkEffect.get_profile_settings 0 2 3,
         WalkEffect.printerr ErrorLine.operation_failed,
         WalkEffect.print (Line.profile 1 1 "c".toList),
         WalkEffect.get_profile_settings 1 1 3,
         WalkEffect.print (Line.pdp_type 3),
         WalkEffect.print (Line.username "u".toList),
         WalkEffect.session (Effect.async_operation_done true)] := by
  obtain ⟨w, h1, _, _, _, h5, _⟩ := profile_walk_visits_every_profile
    [{ profile_type := 0, profile_index := 1, profile_name := "a".toList },
     { profile_type := 0, profile_index := 2, profile_name := "b".toList },
     { profile_type := 1, profile_index := 1, profile_name := "c".toList }]
    [.ok { apn_name := some "internet".toList, pdp_type := some 0, username := none,
           password := none, authentication := some 1 },
     .failed,
     .ok { apn_name := none, pdp_type := some 3, username := some "u".toList,
           password := none, authentication := none }]
    (by decide) (by decide) (by decide)
  exact ⟨w, h1, by rw [h5]; rfl⟩

/-- Claim C25.  A successful profile list response whose list is absent or has
length zero makes `get_profile_list_ready` write "Profile list empty", send no
`Get Profile Settings` request, and signal success with the context
released. -/
theorem empty_profile_list_reports_empty :
    get_profile_list_ready context_init (.ok none) =
      (none, none,
        [WalkEffect.print Line.profile_list_empty,
         WalkEffect.session (Effect.async_operation_done true)]) ∧
    get_profile_list_ready context_init (.ok (some [])) =
      (none, none,
        [WalkEffect.print Line.profile_list_empty,
         WalkEffect.session (Effect.async_operation_done true)]) ∧
    (∀ ctx profile_list, (profile_list = none ∨ profile_list = some []) →
      (get_profile_list_ready ctx (.ok profile_list)).1 = none ∧
      profile_fetches (get_profile_list_ready ctx (.ok profile_list)).2.2 = [] ∧
      printed_lines (get_profile_list_ready ctx (.ok profile_list)).2.2 =
        [Line.profile_list_empty] ∧
      walk_completions (get_profile_list_ready ctx (.ok profile_list)).2.2 = [true]) := by
  refine ⟨rfl, rfl, ?_⟩
  intro ctx profile_list h
  have hf := walk_shutdown_fetches ctx true
  have hp := walk_shutdown_printed ctx true
  have hc := walk_shutdown_completions ctx true
  simp only [profile_fetches, printed_lines, walk_completions] at hf hp hc
  rcases h with h | h <;> subst h <;>
    simp only [get_profile_list_ready, List.length_nil, if_true, profile_fetches, printed_lines,
      walk_completions, List.filterMap_cons, WalkEffect.fetch, WalkEffect.printed,
      WalkEffect.completion, hf, hp, hc] <;>
    simp [walk_shutdown, operation_shutdown]

/-- Claim C26.  After any number `k` of completions of a walk over a non-empty
profile list of length `N` (which fits the `guint` field `len`): `k` is at most
`N`, and a further completion cannot run once `k = N`; the requests sent so far
are those of the first `k + 1` profiles, in list order, so at most one request
awaits completion; while `k < N` the walk record holds index `k`, exactly one
request awaits completion and no completion signal was given; when `k = N` the
record and the context are released, no request awaits completion and success
was signalled once.  Each completion handler first reports its response, which
sends no request, and then does what `get_next_profile_settings` does at the
index incremented by one. -/
theorem one_fetch_outstanding (profile_list : List Profile)
    (results : List (AsyncResult ProfileSettings))
    (hne : profile_list ≠ []) (hlen : profile_list.length < 2 ^ 32) :
    (results.length ≤ profile_list.length →
      ∃ w, ProfileWalk.run (ProfileWalk.start context_init (.ok (some profile_list))) results =
          some w ∧
        w.handled = results.length ∧
        w.outstanding ≤ 1 ∧
        profile_fetches w.trace = (profile_list.take (results.length + 1)).map item_fetch ∧
        (results.length < profile_list.length →
          w.ctx = some context_init ∧
          w.inner_ctx = some { i := results.length, profile_list := profile_list } ∧
          w.outstanding = 1 ∧ walk_completions w.trace = []) ∧
        (results.length = profile_list.length →
          w.ctx = none ∧ w.inner_ctx = none ∧
          w.outstanding = 0 ∧ walk_completions w.trace = [true])) ∧
    (profile_list.length < results.length →
      ProfileWalk.run (ProfileWalk.start context_init (.ok (some profile_list))) results =
        none) ∧
    (∀ ctx inner_ctx res,
      (get_profile_settings_ready ctx inner_ctx res).2.2 =
        fetch_report res ++
          (get_next_profile_settings ctx
            { inner_ctx with i := (inner_ctx.i + 1) % 2 ^ 32 }).2.2 ∧
      profile_fetches (fetch_report res) = [] ∧
      (profile_fetches (get_next_profile_settings ctx inner_ctx).2.2).length ≤ 1) := by
  cases profile_list with
  | nil => exact absurd rfl hne
  | cons p suf =>
    have key := walk_run_prefix suf [] p
      [WalkEffect.print Line.profile_list_retrieved,
       WalkEffect.print (Line.profile p.profile_index p.profile_type p.profile_name),
       WalkEffect.get_profile_settings p.profile_type p.profile_index 3] results
      (by simpa using hlen) rfl rfl
    simp only [List.length_nil, List.nil_append, Nat.zero_add] at key
    rw [walk_start_eq]
    refine ⟨fun h => ?_, fun h => key.2 (by simpa using h), ?_⟩
    · obtain ⟨w, h1, h2, h3, h4, h5⟩ := key.1 (by simpa using h)
      have hcount : w.outstanding =
          ((p :: suf).take (results.length + 1)).length - results.length := by
        simp only [ProfileWalk.outstanding, countP_is_get_profile_settings, h3, h2,
          List.length_map]
      refine ⟨w, h1, h2, ?_, h3, fun h6 => ?_, fun h6 => ?_⟩
      · rw [hcount, List.length_take]
        omega
      · obtain ⟨h7, h8, h9⟩ := h4 (by simp only [List.length_cons] at h6; omega)
        refine ⟨h7, h8, ?_, h9⟩
        rw [hcount, List.length_take]
        omega
      · obtain ⟨h7, h8, h9⟩ := h5 (by simpa using h6)
        refine ⟨h7, h8, ?_, h9⟩
        rw [hcount, List.length_take]
        omega
    · intro ctx inner_ctx res
      refine ⟨by rw [get_profile_settings_ready_eq], fetch_report_no_fetch res, ?_⟩
      unfold get_next_profile_settings
      split
      · rw [walk_shutdown_fetches]
        exact Nat.zero_le 1
      · simp [profile_fetches, WalkEffect.fetch]

/-- The walk of claim C26 over three profiles after two completions, the
second one a failure. -/
theorem one_fetch_outstanding_witness :
    ∃ w, ProfileWalk.run
        (ProfileWalk.start context_init
          (.ok (some [{ profile_type := 0, profile_index := 1, profile_name := "a".toList },
                      { profile_type := 0, profile_index := 2, profile_name := "b".toList },
                      { profile_type := 1, profile_index := 1, profile_name := "c".toList }])))
        [.ok { apn_name := some "internet".toList, pdp_type := none, username := none,
               password := none, authentication := none },
         .failed] = some w ∧
      w.handled = 2 ∧ w.outstanding ≤ 1 ∧
      profile_fetches w.trace = [(0, 1, 3), (0, 2, 3), (1, 1, 3)] := by
  obtain ⟨w, h1, h2, h3, h4, _⟩ := (one_fetch_outstanding
    [{ profile_type := 0, profile_index := 1, profile_name := "a".toList },
     { profile_type := 0, profile_index := 2, profile_name := "b".toList },
     { profile_type := 1, profile_index := 1, profile_name := "c".toList }]
    [.ok { apn_name := some "internet".toList, pdp_type := none, username := none,
           password := none, authentication := none },
     .failed]
    (by decide) (by decide)).1 (by decide)
  exact ⟨w, h1, h2, h3, by rw [h4]; rfl⟩

/-- Claim C27.  With the poll timer armed, `network_cancelled` leaves the context
with `network_started_id = 0` and `packet_status_timeout_id = 0`, removes the
timer source, and after that sends one stop request with the handle of the
context and no autoconnect-disable flag.  Releasing the context it leaves
disconnects no handler and removes no source, so the stop response that follows
gives the completion signal as its only effect. -/
theorem cancel_disarms_before_stop (ctx : Context)
    (htimer : ctx.packet_status_timeout_id ≠ 0) :
    network_cancelled ctx =
      (some { network_started_id := 0, packet_status_timeout_id := 0,
              packet_data_handle := ctx.packet_data_handle },
        [Effect.source_remove ctx.packet_status_timeout_id,
         Effect.stop_network
           { packet_data_handle := ctx.packet_data_handle, disable_autoconnect := none } 10]) ∧
    (∀ ctx1, (network_cancelled ctx).1 = some ctx1 →
      context_free ctx1 = [] ∧
      ∀ res, ∃ operation_status,
        stop_network_ready ctx1 res = (none, [Effect.async_operation_done operation_status])) := by
  have h : network_cancelled ctx =
      (some { network_started_id := 0, packet_status_timeout_id := 0,
              packet_data_handle := ctx.packet_data_handle },
        [Effect.source_remove ctx.packet_status_timeout_id,
         Effect.stop_network
           { packet_data_handle := ctx.packet_data_handle, disable_autoconnect := none } 10]) := by
    simp [network_cancelled, htimer, internal_stop_network]
  refine ⟨h, ?_⟩
  intro ctx1 h1
  rw [h] at h1
  cases h1
  refine ⟨rfl, ?_⟩
  intro res
  cases res
  · exact ⟨false, rfl⟩
  · exact ⟨false, rfl⟩
  · exact ⟨true, rfl⟩

/-- Claim C27 in a context with handler id 7, timer id 9 and handle 5. -/
theorem cancel_disarms_before_stop_witness :
    network_cancelled { network_started_id := 7, packet_status_timeout_id := 9,
                        packet_data_handle := 5 } =
      (some { network_started_id := 0, packet_status_timeout_id := 0, packet_data_handle := 5 },
        [Effect.source_remove 9,
         Effect.stop_network { packet_data_handle := 5, disable_autoconnect := none } 10]) :=
  (cancel_disarms_before_stop
    { network_started_id := 7, packet_status_timeout_id := 9, packet_data_handle := 5 }
    (by decide)).1

/-- Claim C28, counterexample: no non-empty legacy string (no `=`) with fewer
than 4 comma-separated fields makes the legacy positional branch read an entry
beyond the terminator of the split vector. -/
theorem legacy_never_reads_past_terminator :
    ¬ ∃ str : CStr, str ≠ [] ∧ strchr str '=' = false ∧ (g_strsplit str).length < 4 ∧
      ∃ i ∈ start_network_legacy_reads str start_network_properties_init,
        (g_strsplit str).length < i := by
  rintro ⟨str, hne, _, _, i, hi, hlt⟩
  have := legacy_reads_le str hne i hi
  omega

/-- Claim C28, amended: for every non-empty start-network string the legacy
positional branch reads only entries of the split vector, the `NULL`
terminator included: every index it reads is at most the number of
comma-separated fields. -/
theorem legacy_reads_stay_in_split (str : CStr) (hne : str ≠ []) :
    ∀ i ∈ start_network_legacy_reads str start_network_properties_init,
      i ≤ (g_strsplit str).length :=
  fun i hi => legacy_reads_le str hne i hi

/-- The reads of claim C28 for the two-field string `a,PAP`: entries 0, 1 and
the terminator at index 2. -/
theorem legacy_reads_stay_in_split_witness :
    start_network_legacy_reads "a,PAP".toList start_network_properties_init = [0, 1, 2] ∧
    (g_strsplit "a,PAP".toList).length = 2 ∧
    ∀ i ∈ start_network_legacy_reads "a,PAP".toList start_network_properties_init,
      i ≤ (g_strsplit "a,PAP".toList).length :=
  ⟨by decide, by decide, legacy_reads_stay_in_split "a,PAP".toList (by decide)⟩

/-- Claim C29.  For a key=value bind-mux string that parses successfully, the
build depends only on the record the parse leaves: it fails when `mux_id` is
`QMI_WDS_MUX_ID_UNDEFINED` (255) or `ep_iface_number` is
`QMI_WDS_ENDPOINT_INTERFACE_NUMBER_UNDEFINED` (0xFFFFFFFF), whether or not the
keys were supplied, and otherwise it succeeds with the request built from that
record. -/
theorem sentinel_value_counts_as_missing (str : CStr) (props : BindMuxDataPortProperties)
    (hformat : strchr str '=' = true)
    (hparse : qmicli_parse_key_value_string str bind_mux_data_port_properties_handle
      bind_mux_data_port_properties_init = (true, props)) :
    ((props.mux_id = 255 ∨ props.ep_iface_number = 0xFFFFFFFF) →
      bind_mux_data_port_input_create str = none) ∧
    (¬ (props.mux_id = 255 ∨ props.ep_iface_number = 0xFFFFFFFF) →
      bind_mux_data_port_input_create str =
        some { endpoint_type := props.ep_type,
               endpoint_interface_number := props.ep_iface_number,
               mux_id := props.mux_id,
               client_type := props.client_type }) := by
  have hne : str ≠ [] := by
    intro h
    subst h
    simp [strchr] at hformat
  have hs1 : QMI_WDS_MUX_ID_UNDEFINED = 255 := rfl
  have hs2 : to_guint32 QMI_WDS_ENDPOINT_INTERFACE_NUMBER_UNDEFINED = 0xFFFFFFFF := by decide
  constructor
  · intro h
    simp only [bind_mux_data_port_input_create, if_neg hne, hformat, if_true, hparse, hs1, hs2,
      if_pos h]
  · intro h
    simp only [bind_mux_data_port_input_create, if_neg hne, hformat, if_true, hparse, hs1, hs2,
      if_neg h]

/-- Claim C29 at `mux-id=255,ep-iface-number=2`: both keys are supplied, the
parse succeeds, and the build fails. -/
theorem sentinel_value_counts_as_missing_witness :
    supplies "mux-id=255,ep-iface-number=2".toList "mux-id".toList "255".toList ∧
    supplies "mux-id=255,ep-iface-number=2".toList "ep-iface-number".toList "2".toList ∧
    qmicli_parse_key_value_string "mux-id=255,ep-iface-number=2".toList
      bind_mux_data_port_properties_handle bind_mux_data_port_properties_init =
        (true, { mux_id := 255, ep_type := .HSUSB, ep_iface_number := 2,
                 client_type := .TETHERED }) ∧
    bind_mux_data_port_input_create "mux-id=255,ep-iface-number=2".toList = none :=
  ⟨⟨"mux-id".toList, by decide, by decide⟩,
   ⟨"ep-iface-number".toList, by decide, by decide⟩,
   by decide,
   (sentinel_value_counts_as_missing "mux-id=255,ep-iface-number=2".toList
      { mux_id := 255, ep_type := .HSUSB, ep_iface_number := 2, client_type := .TETHERED }
      (by decide) (by decide)).1 (Or.inl rfl)⟩

/-- Claim C30.  On a poll response without output or with an error result,
`timeout_get_packet_service_status_ready` has no effect at all (no stop request,
no completion signal) and leaves the context as it was; `packet_status_timeout`
only sends the status request and leaves the context as it was.  In a followed
session (timer id not 0) the timer callback therefore runs again after a failed
poll, with the handle and both ids unchanged. -/
theorem failed_poll_changes_nothing (ip_family_value : QmiWdsIpFamily → Nat) (str : CStr)
    (ctx : Context) (handler_id source_id handle : Nat) (hsource : source_id ≠ 0) :
    timeout_get_packet_service_status_ready ctx .failed = (some ctx, []) ∧
    timeout_get_packet_service_status_ready ctx .error = (some ctx, []) ∧
    packet_status_timeout ctx = (some ctx, [Effect.get_packet_service_status 10]) ∧
    (∀ res, (res = AsyncResult.failed ∨ res = AsyncResult.error) →
      (Session.run (Options.start str true)
          (Session.start ip_family_value (Options.start str true))
          [.start_network_ready (.ok handle) handler_id source_id,
           .packet_status_timeout,
           .timeout_get_packet_service_status_ready res,
           .packet_status_timeout]).map (fun s => (s.ctx, s.trace)) =
        some (some { network_started_id := handler_id, packet_status_timeout_id := source_id,
                     packet_data_handle := handle },
              [Effect.start_network (start_network_input_create ip_family_value str) 45,
               Effect.cancellable_connect, Effect.timeout_add_seconds 20,
               Effect.get_packet_service_status 10,
               Effect.get_packet_service_status 10])) := by
  refine ⟨rfl, rfl, rfl, ?_⟩
  intro res hres
  rcases hres with h | h <;> subst h <;>
    simp [Session.run, Session.step, Session.start, qmicli_wds_run, Options.start,
      Event.enabled, Event.dispatch, Effect.is_start_network, Event.is_start_network_ready,
      Event.is_status_ready, Effect.is_get_packet_service_status,
      start_network_ready, start_network_ready_report, packet_status_timeout,
      timeout_get_packet_service_status_ready,
      internal_stop_network, hsource, context_init]

/-- Claim C30 in a followed session with handle 5 whose first poll gets no
output: the timer callback runs again. -/
theorem failed_poll_changes_nothing_witness :
    (Session.run (Options.start [] true)
        (Session.start ip_family_number (Options.start [] true))
        [.start_network_ready (.ok 5) 7 9,
         .packet_status_timeout,
         .timeout_get_packet_service_status_ready .failed,
         .packet_status_timeout]).map (fun s => (s.ctx, s.trace)) =
      some (some { network_started_id := 7, packet_status_timeout_id := 9,
                   packet_data_handle := 5 },
            [Effect.start_network (start_network_input_create ip_family_number []) 45,
             Effect.cancellable_connect, Effect.timeout_add_seconds 20,
             Effect.get_packet_service_status 10,
             Effect.get_packet_service_status 10]) :=
  (failed_poll_changes_nothing ip_family_number [] context_init 7 9 5 (by decide)).2.2.2
    .failed (Or.inl rfl)

end QmicliWds
